import Mathlib

/-!
Verification development for the impetus lottery / giveaway pallets.

Shallow embedding of four FRAME pallets of the repository:

* `blockchain/pallets/lottery` (prefix `lot_` / `Lottery…`),
* `pallets/lucky-number`       (prefix `ln_`  / `LN…`),
* `pallets/giveaway`           (prefix `ga_`  / `GA…`),
* `pallets/give-away`          (prefix `gw_`  / `GW…`).

Modelling conventions:

* Account identifiers, selections and block numbers are `Nat`.
* Storage maps are total functions (`ValueQuery` maps return the default,
  `OptionQuery` maps return `Option`).
* `u32`-typed storage values are kept in `[0, 2^32)` by reducing writes with
  the saturating / wrapping operation the source uses.
* Balances live in the external ledger collaborator; a keep-alive transfer is
  `transferKA` (spec section 6): it either moves the whole amount or fails and
  moves nothing.
* Each dispatchable is `State → Except Error State`.  FRAME dispatch is
  transactional: when a dispatchable returns an error every storage write it
  made (events included) is reverted, which the embedding renders by the error
  constructor carrying no state; `dispatch` exposes the post-call state.
  Rust panics (`unwrap` on `None`, `%` by zero) abort the block and likewise
  leave no state; they are modelled by dedicated error constructors.
* The runtime randomness collaborator is a parameter `oracle : Nat → Nat`;
  `generate_random_number` decodes its value as a `u32` exactly as the source
  decodes the first four bytes of the returned hash.
-/

/-- Largest value of an unsigned 32-bit integer (`u32::MAX`). -/
def U32MAX : Nat := 4294967295

/-- Reduction of an arbitrary natural to the `u32` value range, used where the
source receives a `u32`-typed argument from the wire. -/
def toU32 (n : Nat) : Nat := n % 4294967296

/-- Saturating 32-bit increment, mirroring `u32::saturating_add(1)`. -/
def satSucc32 (n : Nat) : Nat := min (n + 1) U32MAX

/-- External ledger collaborator (spec section 6): a keep-alive transfer.  It
succeeds exactly when the source account retains at least the existential
minimum after paying; on failure no balance moves.  All call sites of the
embedding use distinct `src`/`dst` accounts. -/
def transferKA (minBal : Nat) (bal : Nat → Nat) (src dst amt : Nat) :
    Option (Nat → Nat) :=
  if amt + minBal ≤ bal src then
    some (fun a => if a = src then bal src - amt
                   else if a = dst then bal dst + amt else bal a)
  else none

/-- External ledger collaborator: `Currency::deposit_creating`. -/
def depositCreating (bal : Nat → Nat) (acct amt : Nat) : Nat → Nat :=
  fun a => if a = acct then bal acct + amt else bal a

/-- Transactional dispatch of one extrinsic: on success the new state is kept,
on an error (or a panic) every storage effect is reverted. -/
def dispatch {σ ε : Type} (f : σ → Except ε σ) (s : σ) : σ × Option ε :=
  match f s with
  | .ok s' => (s', none)
  | .error e => (s, some e)

/-- Boolean success test for an `Except` result. -/
def isOkE {ε α : Type} : Except ε α → Bool
  | .ok _ => true
  | .error _ => false

/-- Pick the success state of an `Except` result, keeping the old state on an
error (used only to name concrete states produced by successful calls). -/
def okOr {ε σ : Type} (s : σ) : Except ε σ → σ
  | .ok s' => s'
  | .error _ => s

theorem okOr_ok {ε σ : Type} {s s' : σ} {r : Except ε σ} (h : r = .ok s') :
    okOr s r = s' := by subst h; rfl

/-! ## The `lottery` pallet (blockchain/pallets/lottery/src/lib.rs) -/

/-- Runtime configuration constants of the lottery pallet. -/
structure LotteryConsts where
  maxGenerateRandom : Nat
  maxParticipants : Nat
  minBalance : Nat
  potAccount : Nat

/-- `LotteryConfig` of the lottery pallet (the `repeat` flag is `repeats`). -/
structure LotteryConfig where
  price : Nat
  start : Nat
  length : Nat
  delay : Nat
  repeats : Bool
deriving DecidableEq

/-- Events of the lottery pallet used by the embedding. -/
inductive LotteryEvent
  | lotteryStarted (kind index : Nat)
  | ticketBought (kind index user selection : Nat)
deriving DecidableEq

/-- Error enum of the lottery pallet (plus the arithmetic overflow error of
`checked_add` and the transfer error of the ledger collaborator). -/
inductive LotteryError
  | notConfigured
  | inProgress
  | alreadyEnded
  | tooManyParticipants
  | insufficientBalance
  | overflow
deriving DecidableEq

/-- Storage of the lottery pallet together with the ambient block number,
the ledger balances and the emitted events. -/
structure LotteryState where
  lotteryIndex : Nat → Nat
  lottery : Nat → Nat → Option LotteryConfig
  participants : Nat → Nat → Nat → List Nat
  balances : Nat → Nat
  events : List LotteryEvent
  now : Nat

/-- `start_lottery` of the lottery pallet. -/
def lot_start_lottery (c : LotteryConsts) (s : LotteryState)
    (kind price length delay : Nat) (repeats : Bool) :
    Except LotteryError LotteryState :=
  let index := s.lotteryIndex kind
  match s.lottery kind index with
  | some _ => .error .inProgress
  | none =>
    -- u32 checked_add(1) fails exactly at u32::MAX
    if index = U32MAX then .error .overflow
    else
      let cfg : LotteryConfig :=
        { price := price, start := s.now, length := length, delay := delay,
          repeats := repeats }
      let bal1 :=
        if s.balances c.potAccount = 0 then
          depositCreating s.balances c.potAccount c.minBalance
        else s.balances
      .ok { s with
        lottery := fun k i => if k = kind ∧ i = index then some cfg
                              else s.lottery k i,
        lotteryIndex := fun k => if k = kind then index + 1
                                 else s.lotteryIndex k,
        balances := bal1,
        events := .lotteryStarted kind index :: s.events }

/-- `do_buy_ticket` of the lottery pallet.  The second capacity test mirrors
`try_push`; it is unreachable because of the preceding `is_full` check. -/
def lot_do_buy_ticket (c : LotteryConsts) (s : LotteryState)
    (caller kind index selection : Nat) : Except LotteryError LotteryState :=
  match s.lottery kind index with
  | none => .error .notConfigured
  | some config =>
    if s.now < config.start + config.length then
      let v := s.participants kind index selection
      if v.length < c.maxParticipants then
        match transferKA c.minBalance s.balances caller c.potAccount
            config.price with
        | none => .error .insufficientBalance
        | some bal2 =>
          if v.length < c.maxParticipants then
            .ok { s with
              participants := fun k i sel =>
                if k = kind ∧ i = index ∧ sel = selection then v ++ [caller]
                else s.participants k i sel,
              balances := bal2,
              events := .ticketBought kind index caller selection :: s.events }
          else .error .tooManyParticipants
      else .error .tooManyParticipants
    else .error .alreadyEnded

/-- `buy_ticket` of the lottery pallet: the result of `do_buy_ticket` is
discarded (`let _ = Self::do_buy_ticket(..)`); no error path of
`do_buy_ticket` leaves a storage write, so the failed call keeps the state. -/
def lot_buy_ticket (c : LotteryConsts) (s : LotteryState)
    (caller kind index selection : Nat) : Except LotteryError LotteryState :=
  match lot_do_buy_ticket c s caller kind index selection with
  | .ok s' => .ok s'
  | .error _ => .ok s

/-- `generate_random_number`: the collaborator's hash decoded as a `u32`. -/
def generate_random_number (oracle : Nat → Nat) (seed : Nat) : Nat :=
  toU32 (oracle seed)

/-- Threshold below which a draw carries no modulus bias:
`u32::MAX - u32::MAX % total`. -/
def biasThreshold (total : Nat) : Nat := U32MAX - U32MAX % total

/-- The retry loop body of `choose_ticket`: `r` is the current draw, `i` the
next seed, `fuel` the remaining iterations of `for i in 1..MaxGenerateRandom`. -/
def drawLoop (oracle : Nat → Nat) (total : Nat) : Nat → Nat → Nat → Nat
  | r, _, 0 => r
  | r, i, fuel + 1 =>
    if r < biasThreshold total then r
    else drawLoop oracle total (generate_random_number oracle i) (i + 1) fuel

/-- `choose_ticket` of the lottery pallet. -/
def choose_ticket (c : LotteryConsts) (oracle : Nat → Nat) (total : Nat) :
    Option Nat :=
  if total = 0 then none
  else
    some (drawLoop oracle total (generate_random_number oracle 0) 1
      (c.maxGenerateRandom - 1) % total)

/-- Number of redraws performed by the retry loop of `choose_ticket`. -/
def redraws (oracle : Nat → Nat) (total : Nat) : Nat → Nat → Nat → Nat
  | _, _, 0 => 0
  | r, i, fuel + 1 =>
    if r < biasThreshold total then 0
    else redraws oracle total (generate_random_number oracle i) (i + 1) fuel + 1

/-- Total number of values requested from the randomness collaborator by one
`choose_ticket` call. -/
def choose_ticket_draws (c : LotteryConsts) (oracle : Nat → Nat)
    (total : Nat) : Nat :=
  if total = 0 then 0
  else
    redraws oracle total (generate_random_number oracle 0) 1
      (c.maxGenerateRandom - 1) + 1

/-- Modelled from the spec: the seed at which protocol A stops, namely the
first seed in `0, 1, …` whose draw falls strictly below the bias threshold,
or the final seed of the budget when no draw does.  (The initial draw happens
before the loop, so even a zero budget looks at seed `0`.) -/
def spec_stop_index (oracle : Nat → Nat) (total k : Nat) : Nat :=
  ((List.range (max k 1)).find?
    (fun j => decide (generate_random_number oracle j < biasThreshold total))
    ).getD (max k 1 - 1)

/-- Helper for the loop characterization: the stopping seed when the loop
still checks the draws at seeds `m, m+1, …, m+fuel-1`. -/
def stopFrom (oracle : Nat → Nat) (total m fuel : Nat) : Nat :=
  ((List.range' m fuel).find?
    (fun j => decide (generate_random_number oracle j < biasThreshold total))
    ).getD (m + fuel)

theorem stopFrom_ge (oracle : Nat → Nat) (total m fuel : Nat) :
    m ≤ stopFrom oracle total m fuel := by
  unfold stopFrom
  cases hf : (List.range' m fuel).find?
      (fun j => decide (generate_random_number oracle j < biasThreshold total))
      with
  | none =>
    simp only [Option.getD_none]
    exact Nat.le_add_right m fuel
  | some j =>
    have hmem := List.mem_of_find?_eq_some hf
    have := List.mem_range'_1.mp hmem
    simpa using this.1

theorem drawLoop_stopFrom (oracle : Nat → Nat) (total : Nat) : ∀ fuel m,
    drawLoop oracle total (generate_random_number oracle m) (m + 1) fuel
      = generate_random_number oracle (stopFrom oracle total m fuel)
    ∧ redraws oracle total (generate_random_number oracle m) (m + 1) fuel
      = stopFrom oracle total m fuel - m := by
  intro fuel
  induction fuel with
  | zero =>
    intro m
    constructor
    · simp [drawLoop, stopFrom]
    · simp [redraws, stopFrom]
  | succ fuel ih =>
    intro m
    by_cases h : generate_random_number oracle m < biasThreshold total
    · have hs : stopFrom oracle total m (fuel + 1) = m := by
        simp [stopFrom, List.range'_succ, h]
      constructor
      · simp [drawLoop, h, hs]
      · simp [redraws, h, hs]
    · have hs : stopFrom oracle total m (fuel + 1)
          = stopFrom oracle total (m + 1) fuel := by
        simp only [stopFrom, List.range'_succ]
        rw [List.find?_cons_of_neg _ (by simpa using h)]
        cases hf : (List.range' (m + 1) fuel).find?
            (fun j => decide
              (generate_random_number oracle j < biasThreshold total)) with
        | none => simp [Nat.add_assoc, Nat.add_comm 1 fuel]
        | some j => simp
      have ih' := ih (m + 1)
      constructor
      · simp only [drawLoop, h, if_false, hs]
        exact ih'.1
      · simp only [redraws, h, if_false, hs]
        rw [ih'.2]
        have hge : m + 1 ≤ stopFrom oracle total (m + 1) fuel :=
          stopFrom_ge oracle total (m + 1) fuel
        omega

theorem stopFrom_eq_spec (oracle : Nat → Nat) (total k : Nat) :
    stopFrom oracle total 0 (k - 1) = spec_stop_index oracle total k := by
  cases k with
  | zero =>
    simp only [stopFrom, spec_stop_index]
    by_cases h : generate_random_number oracle 0 < biasThreshold total
    · simp [List.range', List.find?, h, List.range]
    · simp [List.range', List.find?, h, List.range]
  | succ k' =>
    simp only [stopFrom, spec_stop_index, Nat.succ_sub_one,
      Nat.max_eq_left (Nat.succ_le_succ (Nat.zero_le k'))]
    rw [List.range_succ, List.find?_append, ← List.range_eq_range']
    cases hf : (List.range k').find?
        (fun j => decide
          (generate_random_number oracle j < biasThreshold total)) with
    | none =>
      simp only [hf, Option.none_or]
      by_cases h : generate_random_number oracle k' < biasThreshold total
      · simp [h]
      · simp [h]
    | some j => simp [hf]

theorem find?_range'_earlier (p : Nat → Bool) : ∀ n m j,
    (List.range' m n).find? p = some j →
    ∀ i, m ≤ i → i < j → p i = false := by
  intro n
  induction n with
  | zero => intro m j h; simp at h
  | succ n ih =>
    intro m j h i hmi hij
    rw [List.range'_succ] at h
    by_cases hp : p m
    · rw [List.find?_cons_of_pos _ hp] at h
      injection h with h2
      exact absurd hij (by omega)
    · rw [List.find?_cons_of_neg _ hp] at h
      rcases Nat.eq_or_lt_of_le hmi with rfl | hlt
      · simpa using hp
      · exact ih (m + 1) j h i hlt hij

theorem spec_stop_index_le (oracle : Nat → Nat) (total k : Nat) :
    spec_stop_index oracle total k ≤ max k 1 - 1 := by
  unfold spec_stop_index
  cases hf : (List.range (max k 1)).find?
      (fun j => decide (generate_random_number oracle j < biasThreshold total))
      with
  | none => simp
  | some j =>
    have hmem := List.mem_of_find?_eq_some hf
    have := List.mem_range.mp hmem
    have h1 : 1 ≤ max k 1 := le_max_right k 1
    simp only [Option.getD_some]
    omega

theorem spec_stop_index_not_below (oracle : Nat → Nat) (total k : Nat) :
    ∀ j, j < spec_stop_index oracle total k →
      ¬ generate_random_number oracle j < biasThreshold total := by
  intro j hj
  unfold spec_stop_index at hj
  cases hf : (List.range (max k 1)).find?
      (fun j => decide (generate_random_number oracle j < biasThreshold total))
      with
  | none =>
    have hall := List.find?_eq_none.mp hf
    have h1 : 1 ≤ max k 1 := le_max_right k 1
    rw [hf] at hj
    simp only [Option.getD_none] at hj
    have hjmem : j ∈ List.range (max k 1) := List.mem_range.mpr (by omega)
    simpa using hall j hjmem
  | some j0 =>
    rw [hf] at hj
    simp only [Option.getD_some] at hj
    have := find?_range'_earlier
      (fun j => decide (generate_random_number oracle j < biasThreshold total))
      (max k 1) 0 j0 (by rw [← List.range_eq_range']; exact hf) j
      (Nat.zero_le j) hj
    simpa using this

theorem spec_stop_index_stops (oracle : Nat → Nat) (total k : Nat) :
    generate_random_number oracle (spec_stop_index oracle total k)
        < biasThreshold total
    ∨ spec_stop_index oracle total k = max k 1 - 1 := by
  unfold spec_stop_index
  cases hf : (List.range (max k 1)).find?
      (fun j => decide (generate_random_number oracle j < biasThreshold total))
      with
  | none => right; simp
  | some j0 =>
    left
    have := List.find?_some hf
    simpa using this

/-- Claim C5 (amended): `choose_ticket total` returns `None` iff `total = 0`;
otherwise it draws `u32` values at seeds `0, 1, 2, …`, making at most
`max 1 MaxGenerateRandom` draws in all (the initial draw is made even when
`MaxGenerateRandom = 0`), stops at the first draw strictly below
`u32::MAX - u32::MAX % total`, and returns `Some (d % total)` where `d` is
that stopping draw, or the final draw when the retry budget is exhausted. -/
theorem choose_ticket_spec (c : LotteryConsts) (oracle : Nat → Nat) :
    (∀ total, choose_ticket c oracle total = none ↔ total = 0)
    ∧ ∀ total, 0 < total →
        choose_ticket c oracle total
          = some (generate_random_number oracle
              (spec_stop_index oracle total c.maxGenerateRandom) % total)
        ∧ choose_ticket_draws c oracle total
          = spec_stop_index oracle total c.maxGenerateRandom + 1
        ∧ choose_ticket_draws c oracle total ≤ max 1 c.maxGenerateRandom
        ∧ (∀ j, j < spec_stop_index oracle total c.maxGenerateRandom →
            ¬ generate_random_number oracle j < biasThreshold total)
        ∧ (generate_random_number oracle
              (spec_stop_index oracle total c.maxGenerateRandom)
              < biasThreshold total
           ∨ spec_stop_index oracle total c.maxGenerateRandom
              = max c.maxGenerateRandom 1 - 1) := by
  constructor
  · intro total
    by_cases ht : total = 0 <;> simp [choose_ticket, ht]
  · intro total ht
    have h0 : ¬ total = 0 := by omega
    have hdl := drawLoop_stopFrom oracle total (c.maxGenerateRandom - 1) 0
    rw [Nat.zero_add] at hdl
    have hse := stopFrom_eq_spec oracle total c.maxGenerateRandom
    have hle := spec_stop_index_le oracle total c.maxGenerateRandom
    have hmax : 1 ≤ max c.maxGenerateRandom 1 := le_max_right _ 1
    refine ⟨?_, ?_, ?_, spec_stop_index_not_below oracle total c.maxGenerateRandom,
      spec_stop_index_stops oracle total c.maxGenerateRandom⟩
    · simp only [choose_ticket, h0, if_false]
      rw [hdl.1, hse]
    · simp only [choose_ticket_draws, h0, if_false]
      rw [hdl.2, hse, Nat.sub_zero]
    · simp only [choose_ticket_draws, h0, if_false]
      rw [hdl.2, hse, Nat.sub_zero]
      rw [Nat.max_comm 1 c.maxGenerateRandom]
      omega

/-- Lottery constants with a zero retry budget, used to exercise the
`MaxGenerateRandom = 0` corner of `choose_ticket`. -/
def lotCex : LotteryConsts :=
  { maxGenerateRandom := 0, maxParticipants := 10, minBalance := 1,
    potAccount := 999 }

/-- Claim C5 (counterexample): with `MaxGenerateRandom = 0` the call
`choose_ticket 1` still requests one draw from the randomness collaborator
(the initial draw precedes the retry loop), so the claim's bound of "at most
`MaxGenerateRandom` draws in all" fails at this input. -/
theorem choose_ticket_zero_budget_draws :
    lotCex.maxGenerateRandom = 0
    ∧ choose_ticket_draws lotCex (fun s => s) 1 = 1
    ∧ ¬ choose_ticket_draws lotCex (fun s => s) 1 ≤ lotCex.maxGenerateRandom :=
  ⟨rfl, rfl, by decide⟩

/-- Lottery constants for the `choose_ticket` witness. -/
def lotW : LotteryConsts :=
  { maxGenerateRandom := 3, maxParticipants := 10, minBalance := 1,
    potAccount := 999 }

/-- Randomness collaborator forcing one biased draw and then an unbiased one. -/
def lotWOracle : Nat → Nat := fun s => if s = 0 then 4294967295 else 7

theorem choose_ticket_spec_witness :
    0 < 10
    ∧ choose_ticket lotW lotWOracle 10 = some 7
    ∧ choose_ticket_draws lotW lotWOracle 10 = 2 := by
  have h := (choose_ticket_spec lotW lotWOracle).2 10 (by decide)
  refine ⟨by decide, ?_, ?_⟩
  · rw [h.1]; decide
  · rw [h.2.1]; decide

/-! ## The `lucky-number` pallet (pallets/lucky-number/src/lib.rs) -/

/-- Runtime configuration constants of the lucky-number pallet. -/
structure LNConsts where
  potAccount : Nat
  potDeposit : Nat
  maxSet : Nat
  minBalance : Nat

/-- `LotteryConfig` of the lucky-number pallet (`repeat` is `repeats`). -/
structure LNConfig where
  minPrice : Nat
  start : Nat
  length : Nat
  delay : Nat
  rate : Nat
  repeats : Bool
deriving DecidableEq

/-- Events of the lucky-number pallet. -/
inductive LNEvent
  | roundStarted (round : Nat)
  | ticketBought (round who amount number : Nat)
  | randomNumberGenerated (round number : Nat)
  | rewardClaimed (round who amount : Nat)
  | rewardClaimedFailed (round who amount : Nat)
deriving DecidableEq

/-- Error enum of the lucky-number pallet (the ledger transfer error is
`insufficientBalance`). -/
inductive LNError
  | notConfigured
  | inProgress
  | cannotSetRate
  | alreadyEnded
  | invalidCall
  | invalidNumber
  | tooManyParticipants
  | insufficientBalance
deriving DecidableEq

/-- Storage of the lucky-number pallet.  `participants` and `winners` are
`BoundedBTreeSet`s; the embedding keeps them as duplicate-free lists in
insertion order (the extrinsics only use membership, guarded insertion and
removal). -/
structure LNState where
  round : Nat
  lottery : Nat → Option LNConfig
  participants : Nat → Nat → List Nat
  winners : Nat → List Nat
  userPredictionValue : Nat → Nat → Nat → Nat
  balances : Nat → Nat
  events : List LNEvent
  now : Nat

/-- Saturating multiplication in the 128-bit balance domain
(`amount.saturating_mul(rate)`). -/
def satMul128 (a b : Nat) : Nat :=
  min (a * b) 340282366920938463463374607431768211455

/-- Saturating addition in the 128-bit balance domain
(`v.saturating_add(amount)`). -/
def satAdd128 (a b : Nat) : Nat :=
  min (a + b) 340282366920938463463374607431768211455

/-- `buy_ticket` of the lucky-number pallet.  The source inserts the
participant and the stake entry inside `Participants::try_mutate` before the
transfer; a failing transfer makes the dispatchable return the error, and
transactional dispatch discards those writes, so the embedding short-circuits
on the failed transfer. -/
def ln_buy_ticket (c : LNConsts) (s : LNState) (caller number amount : Nat) :
    Except LNError LNState :=
  let number := number % 256  -- the wire argument is a u8
  if number < 100 then
    let round := s.round
    match s.lottery round with
    | none => .error .notConfigured
    | some config =>
      if s.now ≤ config.start + config.length then
        let parts := s.participants round number
        if caller ∈ parts then
          -- repeat purchase: accumulate the stake for this selection
          match transferKA c.minBalance s.balances caller c.potAccount
              amount with
          | none => .error .insufficientBalance
          | some bal2 =>
            .ok { s with
              userPredictionValue := fun r a n =>
                if r = round ∧ a = caller ∧ n = number then
                  satAdd128 (s.userPredictionValue round caller number) amount
                else s.userPredictionValue r a n,
              balances := bal2,
              events := .ticketBought round caller amount number :: s.events }
        else
          if parts.length < c.maxSet then
            match transferKA c.minBalance s.balances caller c.potAccount
                amount with
            | none => .error .insufficientBalance
            | some bal2 =>
              .ok { s with
                participants := fun r n =>
                  if r = round ∧ n = number then parts ++ [caller]
                  else s.participants r n,
                userPredictionValue := fun r a n =>
                  if r = round ∧ a = caller ∧ n = number then amount
                  else s.userPredictionValue r a n,
                balances := bal2,
                events := .ticketBought round caller amount number
                  :: s.events }
          else .error .tooManyParticipants
      else .error .alreadyEnded
  else .error .invalidNumber

/-- `start_lottery` of the lucky-number pallet (manager origin assumed). -/
def ln_start_lottery (c : LNConsts) (s : LNState)
    (minPrice length delay rate : Nat) (repeats : Bool) :
    Except LNError LNState :=
  let round := s.round
  match s.lottery round with
  | some _ => .error .inProgress
  | none =>
    if rate < 99 then
      let cfg : LNConfig :=
        { minPrice := minPrice, start := s.now, length := length,
          delay := delay, rate := rate, repeats := repeats }
      let bal1 :=
        if s.balances c.potAccount = 0 then
          depositCreating s.balances c.potAccount c.potDeposit
        else s.balances
      .ok { s with
        lottery := fun r => if r = round then some cfg else s.lottery r,
        balances := bal1,
        events := .roundStarted round :: s.events }
    else .error .cannotSetRate

/-- `claim_reward` of the lucky-number pallet (manager origin assumed).  On a
failed payout transfer the winner set is left untouched and a
`RewardClaimedFailed` event carrying the error is emitted; the dispatchable
still returns `Ok`. -/
def ln_claim_reward (c : LNConsts) (s : LNState) (who round number : Nat) :
    Except LNError LNState :=
  let number := number % 256  -- the wire argument is a u8
  let ws := s.winners round
  if who ∈ ws then
    let amount := s.userPredictionValue round who number
    match s.lottery round with
    | none => .error .notConfigured
    | some cfg =>
      let reward := satMul128 amount cfg.rate
      match transferKA c.minBalance s.balances c.potAccount who reward with
      | some bal2 =>
        .ok { s with
          winners := fun r => if r = round then ws.erase who
                              else s.winners r,
          balances := bal2,
          events := .rewardClaimed round who reward :: s.events }
      | none =>
        .ok { s with
          events := .rewardClaimedFailed round who reward :: s.events }
  else .error .invalidCall

/-! ## The `giveaway` pallet (pallets/giveaway/src/lib.rs) -/

/-- Runtime configuration constants of the giveaway pallet. -/
structure GAConsts where
  potAccount : Nat
  potDeposit : Nat
  maxSet : Nat
  minBalance : Nat

/-- `TokenInfo` of the giveaway pallet. -/
structure GATokenInfo where
  assetId : Nat
  amount : Nat
deriving DecidableEq

/-- `GiveawayConfig` of the giveaway pallet.  `kycTier1` renders the
two-variant `KYCStatus` enum (`Tier0` / `Tier1`); the single-variant
`AssetType` and `RandomType` enums are omitted; `end` is `endBlock`. -/
structure GAConfig where
  name : List Nat
  start : Nat
  endBlock : Nat
  kycTier1 : Bool
  creator : Nat
  token : Option GATokenInfo
  maxJoin : Nat
deriving DecidableEq

/-- Events of the giveaway pallet. -/
inductive GAEvent
  | giveawayCreated (index : Nat)
  | winner (index who : Nat) (status : Bool)
  | participated (index who : Nat)
  | results (block : Nat) (requestId values : List Nat)
  | rewardClaimed (index winner : Nat)
deriving DecidableEq

/-- Error enum of the giveaway pallet.  `insufficientBalance` is the ledger
transfer error; `panicked` marks a Rust `unwrap` of `None` (a panic aborts
the block, so like a dispatch error it leaves no state). -/
inductive GAError
  | tooMany
  | tooManyParticipants
  | startBlockInvalid
  | endBlockInvalid
  | alreadyJoined
  | cannotSetResultAgain
  | invalidResult
  | invalidRound
  | giveawayEnded
  | giveawayNotStarted
  | userIsNotVerified
  | insufficientBalance
  | panicked
deriving DecidableEq

/-- Storage of the giveaway pallet.  `didVerified` is the read-only DID
registry of `pallet_did` (true when `ExternalIdAddress` is non-empty for the
`Fractal` provider). -/
structure GAState where
  giveawayIndex : Nat
  giveaways : Nat → Option GAConfig
  roundWinner : Nat → Option Nat
  participants : Nat → Nat → Option Nat
  totalParticipantByGiveaway : Nat → Nat
  giveawayToUser : Nat → Nat → Bool
  blockToGiveaway : Nat → List Nat
  blockToResults : Nat → Option (List Nat × List Nat)
  didVerified : Nat → Bool
  balances : Nat → Nat
  events : List GAEvent
  now : Nat

/-- `create_give_away` of the giveaway pallet.  `GiveawayIndex` is a `u32`
advanced with `saturating_add(1)`; `name` is truncated to 128 bytes; the
bounded `BlockToGiveaway` list fails `try_append` with `TooMany` when full;
`token.unwrap()` panics when the caller passes no token for the (only)
fungible asset type. -/
def ga_create_give_away (c : GAConsts) (s : GAState) (who : Nat)
    (name : List Nat) (startBlock endBlock : Nat) (kycTier1 : Bool)
    (token : Option GATokenInfo) (maxJoin : Nat) : Except GAError GAState :=
  if s.now < startBlock then
    if startBlock < endBlock then
      let index := s.giveawayIndex
      let cfg : GAConfig :=
        { name := name.take 128, start := startBlock, endBlock := endBlock,
          kycTier1 := kycTier1, creator := who, token := token,
          maxJoin := toU32 maxJoin }
      if (s.blockToGiveaway endBlock).length < c.maxSet then
        let bal1 := depositCreating s.balances c.potAccount c.potDeposit
        match token with
        | none => .error .panicked
        | some tok =>
          match transferKA c.minBalance bal1 who c.potAccount tok.amount with
          | none => .error .insufficientBalance
          | some bal2 =>
            .ok { s with
              giveawayIndex := satSucc32 index,
              giveaways := fun g => if g = index then some cfg
                                    else s.giveaways g,
              blockToGiveaway := fun b =>
                if b = endBlock then s.blockToGiveaway endBlock ++ [index]
                else s.blockToGiveaway b,
              balances := bal2,
              events := .giveawayCreated index :: s.events }
      else .error .tooMany
    else .error .endBlockInvalid
  else .error .startBlockInvalid

/-- `participate` of the giveaway pallet.  `Giveaway::get(index).unwrap()`
panics when the giveaway does not exist; `GiveawayToUser` is read for the
`AlreadyJoined` guard but never written anywhere in the pallet; the
participant is stored at position `total` and the `u32` counter is advanced
with `saturating_add(1)`. -/
def ga_participate (s : GAState) (who index : Nat) :
    Except GAError GAState :=
  match s.giveaways index with
  | none => .error .panicked
  | some g =>
    if s.now ≤ g.endBlock then
      if g.start ≤ s.now then
        if g.kycTier1 ∧ ¬ s.didVerified who then .error .userIsNotVerified
        else
          if s.giveawayToUser index who then .error .alreadyJoined
          else
            let total := s.totalParticipantByGiveaway index
            if total < g.maxJoin then
              .ok { s with
                participants := fun gi p =>
                  if gi = index ∧ p = total then some who
                  else s.participants gi p,
                totalParticipantByGiveaway := fun gi =>
                  if gi = index then satSucc32 total
                  else s.totalParticipantByGiveaway gi,
                events := .participated index who :: s.events }
            else .error .tooManyParticipants
      else .error .giveawayNotStarted
    else .error .giveawayEnded

/-- `U256::low_u32` of an oracle value. -/
def low_u32 (v : Nat) : Nat := toU32 v

/-- Winner index remap of protocol B: `index = r % total`, remapped to
`total` when the remainder is zero. -/
def remapIndex (r total : Nat) : Nat :=
  let i := r % total
  if i = 0 then total else i

/-- One iteration of the winner loop in `set_block_result`: record the winner
of giveaway `g` for oracle value `r`.  Both `Participants::get(..).unwrap()`
and `Giveaway::get(..).unwrap()` panic on `None`. -/
def ga_process_pair (s : GAState) (g r : Nat) : Except GAError GAState :=
  let plen := s.totalParticipantByGiveaway g
  if plen ≠ 0 then
    let index := remapIndex (low_u32 r) plen
    match s.participants g (index - 1) with
    | none => .error .panicked
    | some w =>
      .ok { s with
        roundWinner := fun gi => if gi = g then some w else s.roundWinner gi,
        events := .winner g w true :: s.events }
  else
    match s.giveaways g with
    | none => .error .panicked
    | some cfg =>
      .ok { s with
        roundWinner := fun gi => if gi = g then some cfg.creator
                                 else s.roundWinner gi,
        events := .winner g cfg.creator false :: s.events }

/-- The winner loop of `set_block_result`, over the zipped
(queued giveaway, oracle value) pairs. -/
def ga_process_pairs : List (Nat × Nat) → GAState → Except GAError GAState
  | [], s => .ok s
  | (g, r) :: rest, s =>
    match ga_process_pair s g r with
    | .error e => .error e
    | .ok s' => ga_process_pairs rest s'

/-- `set_block_result` of the giveaway pallet (oracle/manager origin
assumed).  The result cache is write-once per height; the batch length must
match the queued-round count before anything is written; the bounded
`RequestId` / `Results` values truncate to 64 and 32 entries. -/
def ga_set_block_result (s : GAState) (blockNumber : Nat)
    (requestId result : List Nat) : Except GAError GAState :=
  match s.blockToResults blockNumber with
  | some _ => .error .cannotSetResultAgain
  | none =>
    if blockNumber < s.now then
      let gs := s.blockToGiveaway blockNumber
      if gs.length = result.length then
        let resultsBounded := result.take 32
        let requestIdBounded := requestId.take 64
        let s1 := { s with
          blockToResults := fun b =>
            if b = blockNumber then some (requestIdBounded, resultsBounded)
            else s.blockToResults b }
        match ga_process_pairs (gs.zip resultsBounded) s1 with
        | .error e => .error e
        | .ok s2 =>
          .ok { s2 with
            blockToGiveaway := fun b =>
              if b = blockNumber then [] else s2.blockToGiveaway b,
            events := .results blockNumber requestIdBounded resultsBounded
              :: s2.events }
      else .error .invalidResult
    else .error .endBlockInvalid

/-- `claim_reward` of the giveaway pallet.  Any signed caller may claim; the
pot pays the recorded winner; nothing removes or marks the winner record, and
no event is emitted on a failed transfer (the dispatchable returns the
error). -/
def ga_claim_reward (c : GAConsts) (s : GAState) (round : Nat) :
    Except GAError GAState :=
  let roundWinner := s.roundWinner round
  let giveaway := s.giveaways round
  match giveaway, roundWinner with
  | some g, some w =>
    match g.token with
    | none => .error .panicked
    | some tok =>
      match transferKA c.minBalance s.balances c.potAccount w tok.amount with
      | none => .error .insufficientBalance
      | some bal2 =>
        .ok { s with
          balances := bal2,
          events := .rewardClaimed round w :: s.events }
  | _, _ => .error .invalidRound

/-! ## The `give-away` pallet (pallets/give-away/src/lib.rs) -/

/-- `GiveAwayConfig` of the give-away pallet (only the fields the embedded
operations touch; the per-block hook fetches the config but never reads it). -/
structure GWConfig where
  start : Nat
  endBlock : Nat
  payFee : Bool
  fee : Nat
  creator : Nat
deriving DecidableEq

/-- Events of the give-away pallet. -/
inductive GWEvent
  | giveAwayCreated (index : Nat)
  | winner (index who : Nat)
  | participated (index who : Nat)
deriving DecidableEq

/-- Panic causes of the give-away per-block hook: `%` by zero in
`random_number`, and `unwrap` of `None` on the participant lookup. -/
inductive GWPanic
  | modByZero
  | unwrapNone
deriving DecidableEq

/-- Storage of the give-away pallet read by the per-block hook.
`participants` is a `BoundedBTreeSet`; the embedding keeps each set as the
list of its elements in iteration order (`nth` walks that order). -/
structure GWState where
  giveAway : Nat → Option GWConfig
  participants : Nat → List Nat
  blockToGiveAway : Nat → List Nat
  events : List GWEvent

/-- `random_number` of the give-away pallet: `generate_random_number(index)
% length`.  The Rust `%` panics when `length = 0`. -/
def gw_random_number (oracle : Nat → Nat) (index length : Nat) :
    Except GWPanic Nat :=
  if length = 0 then .error .modByZero
  else .ok (generate_random_number oracle index % length)

/-- Loop body of the give-away `on_initialize` hook over the queued giveaway
indices: fetch the config (unused), draw a winner position among the
participants and emit the `Winner` event; `nth(..).unwrap()` panics when the
position is out of range. -/
def gw_process : (oracle : Nat → Nat) → List Nat → GWState →
    Except GWPanic GWState
  | _, [], s => .ok s
  | oracle, g :: rest, s =>
    let _giveaway := s.giveAway g
    let parts := s.participants g
    match gw_random_number oracle g parts.length with
    | .error e => .error e
    | .ok number =>
      match parts.get? number with
      | none => .error .unwrapNone
      | some w =>
        gw_process oracle rest
          { s with events := .winner g w :: s.events }

/-- The `on_initialize` hook of the give-away pallet at block `n`. -/
def gw_on_init_hook (oracle : Nat → Nat) (s : GWState) (n : Nat) :
    Except GWPanic GWState :=
  gw_process oracle (s.blockToGiveAway n) s

/-! ## Reachability: lottery pallet -/

/-- Genesis state of the lottery pallet over arbitrary ledger balances. -/
def lot_init (bal : Nat → Nat) : LotteryState :=
  { lotteryIndex := fun _ => 0, lottery := fun _ _ => none,
    participants := fun _ _ _ => [], balances := bal, events := [], now := 0 }

/-- One public step of the lottery pallet: a successful extrinsic or the
block number advancing. -/
inductive LotteryStep (c : LotteryConsts) : LotteryState → LotteryState → Prop
  | start (s : LotteryState) (kind price length delay : Nat) (repeats : Bool)
      (s' : LotteryState) :
      lot_start_lottery c s kind price length delay repeats = .ok s' →
      LotteryStep c s s'
  | buy (s : LotteryState) (caller kind index selection : Nat)
      (s' : LotteryState) :
      lot_buy_ticket c s caller kind index selection = .ok s' →
      LotteryStep c s s'
  | advance (s : LotteryState) : LotteryStep c s { s with now := s.now + 1 }

/-- Reachable states of the lottery pallet. -/
def LotteryReach (c : LotteryConsts) (s : LotteryState) : Prop :=
  ∃ bal, Relation.ReflTransGen (LotteryStep c) (lot_init bal) s

/-! ## Reachability: giveaway pallet -/

/-- Genesis state of the giveaway pallet over an arbitrary DID registry and
arbitrary ledger balances. -/
def ga_init (did : Nat → Bool) (bal : Nat → Nat) : GAState :=
  { giveawayIndex := 0, giveaways := fun _ => none,
    roundWinner := fun _ => none, participants := fun _ _ => none,
    totalParticipantByGiveaway := fun _ => 0,
    giveawayToUser := fun _ _ => false, blockToGiveaway := fun _ => [],
    blockToResults := fun _ => none, didVerified := did, balances := bal,
    events := [], now := 0 }

/-- One public step of the giveaway pallet: a successful extrinsic or the
block number advancing. -/
inductive GAStep (c : GAConsts) : GAState → GAState → Prop
  | create (s : GAState) (who : Nat) (name : List Nat)
      (startBlock endBlock : Nat) (kycTier1 : Bool)
      (token : Option GATokenInfo) (maxJoin : Nat) (s' : GAState) :
      ga_create_give_away c s who name startBlock endBlock kycTier1 token
        maxJoin = .ok s' →
      GAStep c s s'
  | participate (s : GAState) (who index : Nat) (s' : GAState) :
      ga_participate s who index = .ok s' → GAStep c s s'
  | setBlockResult (s : GAState) (blockNumber : Nat)
      (requestId result : List Nat) (s' : GAState) :
      ga_set_block_result s blockNumber requestId result = .ok s' →
      GAStep c s s'
  | claimReward (s : GAState) (round : Nat) (s' : GAState) :
      ga_claim_reward c s round = .ok s' → GAStep c s s'
  | advance (s : GAState) : GAStep c s { s with now := s.now + 1 }

/-- Reachable states of the giveaway pallet. -/
def GAReach (c : GAConsts) (s : GAState) : Prop :=
  ∃ did bal, Relation.ReflTransGen (GAStep c) (ga_init did bal) s

/-! ## Operation-level success lemmas -/

theorem lot_start_lottery_ok {c : LotteryConsts} {s s' : LotteryState}
    {kind price length delay : Nat} {repeats : Bool}
    (h : lot_start_lottery c s kind price length delay repeats = .ok s') :
    s'.participants = s.participants := by
  unfold lot_start_lottery at h
  dsimp only at h
  repeat' split at h
  any_goals exact Except.noConfusion h
  all_goals injection h with h2
  all_goals subst h2
  all_goals rfl

theorem lot_do_buy_ticket_participants {c : LotteryConsts}
    {s s' : LotteryState} {caller kind index selection : Nat}
    (h : lot_do_buy_ticket c s caller kind index selection = .ok s')
    (k i sel : Nat) :
    (s'.participants k i sel).length ≤ c.maxParticipants
    ∨ s'.participants k i sel = s.participants k i sel := by
  unfold lot_do_buy_ticket at h
  dsimp only at h
  repeat' split at h
  any_goals exact Except.noConfusion h
  injection h with h2
  subst h2
  dsimp only
  by_cases hk : k = kind ∧ i = index ∧ sel = selection
  · left
    rw [if_pos hk]
    simp only [List.length_append, List.length_cons, List.length_nil]
    omega
  · right
    rw [if_neg hk]

theorem lot_buy_ticket_ok {c : LotteryConsts} {s s' : LotteryState}
    {caller kind index selection : Nat}
    (h : lot_buy_ticket c s caller kind index selection = .ok s') :
    lot_do_buy_ticket c s caller kind index selection = .ok s' ∨ s' = s := by
  unfold lot_buy_ticket at h
  split at h
  · injection h with h2
    subst h2
    left
    assumption
  · injection h with h2
    subst h2
    right
    rfl

/-- The capacity invariant of the lottery pallet: no reachable state stores
more than `MaxParticipants` accounts under any `(kind, index, selection)`
key. -/
theorem lot_reach_participants_bounded (c : LotteryConsts)
    (s : LotteryState) (h : LotteryReach c s) :
    ∀ k i sel, (s.participants k i sel).length ≤ c.maxParticipants := by
  obtain ⟨bal, hr⟩ := h
  induction hr with
  | refl => intro k i sel; simp [lot_init]
  | tail _ hstep ih =>
    intro k i sel
    cases hstep with
    | start =>
      rename_i hok
      rw [lot_start_lottery_ok hok]
      exact ih k i sel
    | buy =>
      rename_i hok
      rcases lot_buy_ticket_ok hok with hdo | rfl
      · rcases lot_do_buy_ticket_participants hdo k i sel with hle | heq
        · exact hle
        · rw [heq]; exact ih k i sel
      · exact ih k i sel
    | advance => exact ih k i sel

/-- Effects of a successful `create_give_away` call on the giveaway pallet
state: the index advances saturatingly, the new config is stored at the old
index, and the participant bookkeeping is untouched; the stake transfer to
the pot succeeded on the pot-topped-up balances. -/
theorem ga_create_give_away_ok {c : GAConsts} {s s' : GAState} {who : Nat}
    {name : List Nat} {startBlock endBlock : Nat} {kycTier1 : Bool}
    {token : Option GATokenInfo} {maxJoin : Nat}
    (h : ga_create_give_away c s who name startBlock endBlock kycTier1 token
      maxJoin = .ok s') :
    s'.giveawayIndex = satSucc32 s.giveawayIndex
    ∧ s'.giveaways = (fun g => if g = s.giveawayIndex then
        some { name := name.take 128, start := startBlock,
               endBlock := endBlock, kycTier1 := kycTier1, creator := who,
               token := token, maxJoin := toU32 maxJoin }
        else s.giveaways g)
    ∧ s'.totalParticipantByGiveaway = s.totalParticipantByGiveaway
    ∧ s'.participants = s.participants
    ∧ s'.giveawayToUser = s.giveawayToUser
    ∧ s'.blockToGiveaway = (fun b => if b = endBlock then
        s.blockToGiveaway endBlock ++ [s.giveawayIndex]
        else s.blockToGiveaway b)
    ∧ s'.blockToResults = s.blockToResults
    ∧ s'.roundWinner = s.roundWinner
    ∧ s'.didVerified = s.didVerified
    ∧ s'.now = s.now
    ∧ ∃ tok, token = some tok
        ∧ transferKA c.minBalance
            (depositCreating s.balances c.potAccount c.potDeposit) who
            c.potAccount tok.amount = some s'.balances := by
  unfold ga_create_give_away at h
  dsimp only at h
  repeat' split at h
  any_goals exact Except.noConfusion h
  rename_i tok hmatch bal2 hbal
  clear hmatch
  injection h with h2
  subst h2
  exact ⟨rfl, rfl, rfl, rfl, rfl, rfl, rfl, rfl, rfl, rfl, tok, rfl, hbal⟩

/-- Effects of a successful `participate` call: a config exists, the counter
was strictly below its `max_join`, the caller is stored at position `total`
and the counter advances saturatingly; everything else is untouched. -/
theorem ga_participate_ok {s s' : GAState} {who index : Nat}
    (h : ga_participate s who index = .ok s') :
    ∃ g, s.giveaways index = some g
    ∧ s.totalParticipantByGiveaway index < g.maxJoin
    ∧ s'.giveaways = s.giveaways
    ∧ s'.giveawayIndex = s.giveawayIndex
    ∧ s'.roundWinner = s.roundWinner
    ∧ s'.giveawayToUser = s.giveawayToUser
    ∧ s'.blockToGiveaway = s.blockToGiveaway
    ∧ s'.blockToResults = s.blockToResults
    ∧ s'.didVerified = s.didVerified
    ∧ s'.balances = s.balances
    ∧ s'.now = s.now
    ∧ s'.participants = (fun gi p =>
        if gi = index ∧ p = s.totalParticipantByGiveaway index then some who
        else s.participants gi p)
    ∧ s'.totalParticipantByGiveaway = (fun gi =>
        if gi = index then satSucc32 (s.totalParticipantByGiveaway index)
        else s.totalParticipantByGiveaway gi) := by
  unfold ga_participate at h
  dsimp only at h
  repeat' split at h
  any_goals exact Except.noConfusion h
  rename_i g hg hend hstart hkyc hjoined hfull
  injection h with h2
  subst h2
  exact ⟨g, hg, hfull, rfl, rfl, rfl, rfl, rfl, rfl, rfl, rfl, rfl, rfl, rfl⟩

/-- A successful `claim_reward` on the giveaway pallet changes only the
ledger balances and the event list: in particular the winner record is left
in place. -/
theorem ga_claim_reward_ok {c : GAConsts} {s s' : GAState} {round : Nat}
    (h : ga_claim_reward c s round = .ok s') :
    s'.giveawayIndex = s.giveawayIndex
    ∧ s'.giveaways = s.giveaways
    ∧ s'.roundWinner = s.roundWinner
    ∧ s'.participants = s.participants
    ∧ s'.totalParticipantByGiveaway = s.totalParticipantByGiveaway
    ∧ s'.giveawayToUser = s.giveawayToUser
    ∧ s'.blockToGiveaway = s.blockToGiveaway
    ∧ s'.blockToResults = s.blockToResults
    ∧ s'.didVerified = s.didVerified
    ∧ s'.now = s.now := by
  unfold ga_claim_reward at h
  dsimp only at h
  repeat' split at h
  any_goals exact Except.noConfusion h
  injection h with h2
  subst h2
  exact ⟨rfl, rfl, rfl, rfl, rfl, rfl, rfl, rfl, rfl, rfl⟩

/-- One winner-loop iteration only writes the winner record and the events. -/
theorem ga_process_pair_frame {s s' : GAState} {g r : Nat}
    (h : ga_process_pair s g r = .ok s') :
    s'.giveawayIndex = s.giveawayIndex
    ∧ s'.giveaways = s.giveaways
    ∧ s'.participants = s.participants
    ∧ s'.totalParticipantByGiveaway = s.totalParticipantByGiveaway
    ∧ s'.giveawayToUser = s.giveawayToUser
    ∧ s'.blockToGiveaway = s.blockToGiveaway
    ∧ s'.blockToResults = s.blockToResults
    ∧ s'.didVerified = s.didVerified
    ∧ s'.balances = s.balances
    ∧ s'.now = s.now := by
  unfold ga_process_pair at h
  dsimp only at h
  repeat' split at h
  any_goals exact Except.noConfusion h
  all_goals injection h with h2
  all_goals subst h2
  all_goals exact ⟨rfl, rfl, rfl, rfl, rfl, rfl, rfl, rfl, rfl, rfl⟩

/-- The winner loop only writes the winner record and the events. -/
theorem ga_process_pairs_frame : ∀ {ps : List (Nat × Nat)} {s s' : GAState},
    ga_process_pairs ps s = .ok s' →
    s'.giveawayIndex = s.giveawayIndex
    ∧ s'.giveaways = s.giveaways
    ∧ s'.participants = s.participants
    ∧ s'.totalParticipantByGiveaway = s.totalParticipantByGiveaway
    ∧ s'.giveawayToUser = s.giveawayToUser
    ∧ s'.blockToGiveaway = s.blockToGiveaway
    ∧ s'.blockToResults = s.blockToResults
    ∧ s'.didVerified = s.didVerified
    ∧ s'.balances = s.balances
    ∧ s'.now = s.now
  | [], s, s', h => by
    injection h with h2
    subst h2
    exact ⟨rfl, rfl, rfl, rfl, rfl, rfl, rfl, rfl, rfl, rfl⟩
  | (g, r) :: rest, s, s', h => by
    unfold ga_process_pairs at h
    split at h
    · exact Except.noConfusion h
    · rename_i s1 hpair
      have h1 := ga_process_pair_frame hpair
      have h2 := ga_process_pairs_frame h
      refine ⟨?_, ?_, ?_, ?_, ?_, ?_, ?_, ?_, ?_, ?_⟩ <;>
        simp [h1.1, h1.2.1, h1.2.2.1, h1.2.2.2.1, h1.2.2.2.2.1,
          h1.2.2.2.2.2.1, h1.2.2.2.2.2.2.1, h1.2.2.2.2.2.2.2.1,
          h1.2.2.2.2.2.2.2.2.1, h1.2.2.2.2.2.2.2.2.2,
          h2.1, h2.2.1, h2.2.2.1, h2.2.2.2.1, h2.2.2.2.2.1,
          h2.2.2.2.2.2.1, h2.2.2.2.2.2.2.1, h2.2.2.2.2.2.2.2.1,
          h2.2.2.2.2.2.2.2.2.1, h2.2.2.2.2.2.2.2.2.2]

/-- A successful `set_block_result` call leaves the index, the configs and
the participant bookkeeping untouched. -/
theorem ga_set_block_result_frame {s s' : GAState}
    {blockNumber : Nat} {requestId result : List Nat}
    (h : ga_set_block_result s blockNumber requestId result = .ok s') :
    s'.giveawayIndex = s.giveawayIndex
    ∧ s'.giveaways = s.giveaways
    ∧ s'.participants = s.participants
    ∧ s'.totalParticipantByGiveaway = s.totalParticipantByGiveaway
    ∧ s'.giveawayToUser = s.giveawayToUser
    ∧ s'.didVerified = s.didVerified
    ∧ s'.balances = s.balances
    ∧ s'.now = s.now := by
  unfold ga_set_block_result at h
  dsimp only at h
  repeat' split at h
  any_goals exact Except.noConfusion h
  rename_i s2 hloop
  injection h with h2
  subst h2
  have hf := ga_process_pairs_frame hloop
  exact ⟨hf.1, hf.2.1, hf.2.2.1, hf.2.2.2.1, hf.2.2.2.2.1,
    hf.2.2.2.2.2.2.2.1, hf.2.2.2.2.2.2.2.2.1, hf.2.2.2.2.2.2.2.2.2⟩

/-- Inductive invariant of the giveaway pallet:
the `u32` index counter is in range; no config is stored at or above the
counter (while it has not saturated); a giveaway without a config has no
participants; every stored `max_join` is a `u32` value; below saturation the
participant counter never exceeds the configured `max_join`; and the
participant double map is exactly the dense prefix of each counter. -/
def GAInv (s : GAState) : Prop :=
  s.giveawayIndex ≤ U32MAX
  ∧ (∀ g, s.giveawayIndex < g → s.giveaways g = none)
  ∧ (s.giveawayIndex < U32MAX → s.giveaways s.giveawayIndex = none)
  ∧ (∀ g, s.giveaways g = none → s.totalParticipantByGiveaway g = 0)
  ∧ (∀ g cfg, s.giveaways g = some cfg → cfg.maxJoin ≤ U32MAX)
  ∧ (s.giveawayIndex < U32MAX → ∀ g cfg, s.giveaways g = some cfg →
      s.totalParticipantByGiveaway g ≤ cfg.maxJoin)
  ∧ (∀ g i, (s.participants g i).isSome
      ↔ i < s.totalParticipantByGiveaway g)

theorem ga_inv_init (did : Nat → Bool) (bal : Nat → Nat) :
    GAInv (ga_init did bal) := by
  refine ⟨?_, ?_, ?_, ?_, ?_, ?_, ?_⟩ <;> simp [ga_init, U32MAX]

theorem ga_inv_create {c : GAConsts} {s s' : GAState} {who : Nat}
    {name : List Nat} {startBlock endBlock : Nat} {kycTier1 : Bool}
    {token : Option GATokenInfo} {maxJoin : Nat}
    (hok : ga_create_give_away c s who name startBlock endBlock kycTier1
      token maxJoin = .ok s') (hi : GAInv s) : GAInv s' := by
  obtain ⟨hidx, hnone, hcur, htot0, hmj, hbound, hdense⟩ := hi
  obtain ⟨e1, e2, e3, e4, _, _, _, _, _, _, _⟩ := ga_create_give_away_ok hok
  have hidx' : s.giveawayIndex ≤ 4294967295 := hidx
  refine ⟨?_, ?_, ?_, ?_, ?_, ?_, ?_⟩
  · rw [e1]
    simp only [satSucc32, U32MAX]
    omega
  · intro g hg
    rw [e1] at hg
    simp only [satSucc32, U32MAX] at hg
    simp only [e2]
    rw [if_neg (by omega : ¬ g = s.giveawayIndex)]
    exact hnone g (by omega)
  · intro hlt
    rw [e1] at hlt
    simp only [satSucc32, U32MAX] at hlt
    have h1 : satSucc32 s.giveawayIndex = s.giveawayIndex + 1 := by
      simp only [satSucc32, U32MAX]
      omega
    simp only [e2, e1, h1]
    rw [if_neg (by omega : ¬ s.giveawayIndex + 1 = s.giveawayIndex)]
    exact hnone _ (by omega)
  · intro g hg
    simp only [e2] at hg
    simp only [e3]
    by_cases hgi : g = s.giveawayIndex
    · rw [if_pos hgi] at hg
      exact absurd hg (by simp)
    · rw [if_neg hgi] at hg
      exact htot0 g hg
  · intro g cfg hg
    simp only [e2] at hg
    by_cases hgi : g = s.giveawayIndex
    · rw [if_pos hgi] at hg
      injection hg with h5
      subst h5
      simp only [toU32, U32MAX]
      omega
    · rw [if_neg hgi] at hg
      exact hmj g cfg hg
  · intro hlt g cfg hg
    rw [e1] at hlt
    have hsmall : s.giveawayIndex < U32MAX := by
      simp only [satSucc32, U32MAX] at hlt ⊢
      omega
    simp only [e2] at hg
    simp only [e3]
    by_cases hgi : g = s.giveawayIndex
    · rw [if_pos hgi] at hg
      rw [hgi, htot0 s.giveawayIndex (hcur hsmall)]
      exact Nat.zero_le _
    · rw [if_neg hgi] at hg
      exact hbound hsmall g cfg hg
  · intro g i
    simp only [e3, e4]
    exact hdense g i

theorem ga_inv_participate {s s' : GAState} {who index : Nat}
    (hok : ga_participate s who index = .ok s') (hi : GAInv s) : GAInv s' := by
  obtain ⟨hidx, hnone, hcur, htot0, hmj, hbound, hdense⟩ := hi
  obtain ⟨g, hg, hlt, e1, e2, e3, e4, e5, e6, e7, e8, e9, e10, e11⟩ :=
    ga_participate_ok hok
  have hmjle : g.maxJoin ≤ 4294967295 := hmj index g hg
  have hsucc : satSucc32 (s.totalParticipantByGiveaway index)
      = s.totalParticipantByGiveaway index + 1 := by
    simp only [satSucc32, U32MAX]
    omega
  refine ⟨?_, ?_, ?_, ?_, ?_, ?_, ?_⟩
  · rw [e2]; exact hidx
  · intro g2 hg2
    rw [e1]
    exact hnone g2 (by rw [e2] at hg2; exact hg2)
  · intro hsm
    rw [e1, e2]
    exact hcur (by rw [e2] at hsm; exact hsm)
  · intro g2 hg2
    rw [e1] at hg2
    simp only [e11]
    by_cases hgi : g2 = index
    · rw [hgi] at hg2
      rw [hg2] at hg
      exact absurd hg (by simp)
    · rw [if_neg hgi]
      exact htot0 g2 hg2
  · intro g2 cfg hg2
    rw [e1] at hg2
    exact hmj g2 cfg hg2
  · intro hsm g2 cfg hg2
    rw [e2] at hsm
    rw [e1] at hg2
    simp only [e11]
    by_cases hgi : g2 = index
    · rw [if_pos hgi, hsucc]
      rw [hgi] at hg2
      rw [hg2] at hg
      injection hg with h5
      subst h5
      omega
    · rw [if_neg hgi]
      exact hbound hsm g2 cfg hg2
  · intro g2 i
    simp only [e10, e11]
    by_cases hgi : g2 = index
    · rw [if_pos hgi, hsucc]
      by_cases hip : i = s.totalParticipantByGiveaway index
      · rw [if_pos ⟨hgi, hip⟩]
        constructor
        · intro _
          omega
        · intro _
          simp
      · rw [if_neg (fun hc => hip hc.2)]
        rw [hgi]
        have hd := hdense index i
        constructor
        · intro hs
          have := hd.mp hs
          omega
        · intro hlt2
          exact hd.mpr (by omega)
    · rw [if_neg hgi]
      rw [if_neg (fun hc => hgi hc.1)]
      exact hdense g2 i

theorem ga_inv_step {c : GAConsts} {s s' : GAState} (hstep : GAStep c s s')
    (hi : GAInv s) : GAInv s' := by
  cases hstep with
  | create =>
    rename_i hok
    exact ga_inv_create hok hi
  | participate =>
    rename_i hok
    exact ga_inv_participate hok hi
  | setBlockResult =>
    rename_i hok
    obtain ⟨e1, e2, e3, e4, _, _, _, _⟩ := ga_set_block_result_frame hok
    obtain ⟨hidx, hnone, hcur, htot0, hmj, hbound, hdense⟩ := hi
    rw [GAInv, e1, e2, e3, e4]
    exact ⟨hidx, hnone, hcur, htot0, hmj, hbound, hdense⟩
  | claimReward =>
    rename_i hok
    obtain ⟨e1, e2, _, e4, e5, _, _, _, _, _⟩ := ga_claim_reward_ok hok
    obtain ⟨hidx, hnone, hcur, htot0, hmj, hbound, hdense⟩ := hi
    rw [GAInv, e1, e2, e4, e5]
    exact ⟨hidx, hnone, hcur, htot0, hmj, hbound, hdense⟩
  | advance => exact hi

/-- Every reachable state of the giveaway pallet satisfies the inductive
invariant. -/
theorem ga_reach_inv {c : GAConsts} {s : GAState} (h : GAReach c s) :
    GAInv s := by
  obtain ⟨did, bal, hr⟩ := h
  induction hr with
  | refl => exact ga_inv_init did bal
  | tail _ hstep ih => exact ga_inv_step hstep ih

/-- Success form of the keep-alive transfer. -/
theorem transferKA_intro {minBal : Nat} {bal : Nat → Nat} {src dst amt : Nat}
    (h : amt + minBal ≤ bal src) :
    transferKA minBal bal src dst amt
      = some (fun a => if a = src then bal src - amt
                       else if a = dst then bal dst + amt else bal a) := by
  unfold transferKA
  rw [if_pos h]

/-- Explicit success form of `create_give_away` when all guards pass. -/
theorem ga_create_intro {c : GAConsts} {s : GAState} {who : Nat}
    {name : List Nat} {startBlock endBlock : Nat} {kycTier1 : Bool}
    {maxJoin : Nat} (tok : GATokenInfo)
    (h1 : s.now < startBlock) (h2 : startBlock < endBlock)
    (h3 : (s.blockToGiveaway endBlock).length < c.maxSet)
    (h4 : tok.amount + c.minBalance
      ≤ depositCreating s.balances c.potAccount c.potDeposit who) :
    ga_create_give_away c s who name startBlock endBlock kycTier1 (some tok)
      maxJoin
      = .ok { s with
          giveawayIndex := satSucc32 s.giveawayIndex,
          giveaways := fun g => if g = s.giveawayIndex then
              some { name := name.take 128, start := startBlock,
                     endBlock := endBlock, kycTier1 := kycTier1,
                     creator := who, token := some tok,
                     maxJoin := toU32 maxJoin }
            else s.giveaways g,
          blockToGiveaway := fun b => if b = endBlock then
              s.blockToGiveaway endBlock ++ [s.giveawayIndex]
            else s.blockToGiveaway b,
          balances := fun a =>
            if a = who then
              depositCreating s.balances c.potAccount c.potDeposit who
                - tok.amount
            else if a = c.potAccount then
              depositCreating s.balances c.potAccount c.potDeposit
                c.potAccount + tok.amount
            else depositCreating s.balances c.potAccount c.potDeposit a,
          events := .giveawayCreated s.giveawayIndex :: s.events } := by
  unfold ga_create_give_away
  rw [if_pos h1, if_pos h2, if_pos h3]
  dsimp only
  rw [transferKA_intro h4]

/-- Explicit success form of `participate` when all guards pass. -/
theorem ga_participate_intro {s : GAState} {who index : Nat} {g : GAConfig}
    (hg : s.giveaways index = some g)
    (h1 : s.now ≤ g.endBlock) (h2 : g.start ≤ s.now)
    (h3 : g.kycTier1 = false)
    (h4 : s.giveawayToUser index who = false)
    (h5 : s.totalParticipantByGiveaway index < g.maxJoin) :
    ga_participate s who index
      = .ok { s with
          participants := fun gi p =>
            if gi = index ∧ p = s.totalParticipantByGiveaway index then
              some who
            else s.participants gi p,
          totalParticipantByGiveaway := fun gi =>
            if gi = index then
              satSucc32 (s.totalParticipantByGiveaway index)
            else s.totalParticipantByGiveaway gi,
          events := .participated index who :: s.events } := by
  unfold ga_participate
  rw [hg]
  dsimp only
  rw [if_pos h1, if_pos h2,
    if_neg (by rw [h3]; simp : ¬ (g.kycTier1 ∧ ¬ s.didVerified who)),
    if_neg (by rw [h4]; simp : ¬ s.giveawayToUser index who = true),
    if_pos h5]

/-! ## Saturation of the giveaway index counter -/

/-- Concrete giveaway constants used for the concrete scenarios. -/
def gaC : GAConsts :=
  { potAccount := 999, potDeposit := 10, maxSet := 16, minBalance := 1 }

/-- One throwaway giveaway creation by account 1 (start 1, end `n + 2`, a
zero-amount token, capacity 5). -/
def gaChainStep (n : Nat) (s : GAState) : GAState :=
  okOr s (ga_create_give_away gaC s 1 [] 1 (n + 2) false (some ⟨0, 0⟩) 5)

/-- The state after `n` throwaway creations from genesis. -/
def gaChain : Nat → GAState
  | 0 => ga_init (fun _ => false) (fun _ => 100)
  | n + 1 => gaChainStep n (gaChain n)

/-- The facts about `gaChain n` needed to keep creating giveaways. -/
def GaChainOk (n : Nat) (s : GAState) : Prop :=
  s.now = 0
  ∧ s.giveawayIndex = min n U32MAX
  ∧ (∀ g, s.totalParticipantByGiveaway g = 0)
  ∧ (∀ g u, s.giveawayToUser g u = false)
  ∧ (∀ b, (s.blockToGiveaway b).length ≤ 1)
  ∧ (∀ b, n + 2 ≤ b → s.blockToGiveaway b = [])
  ∧ s.balances 1 = 100

theorem satSucc32_min (n : Nat) :
    satSucc32 (min n U32MAX) = min (n + 1) U32MAX := by
  simp only [satSucc32, U32MAX]
  omega

theorem gaChain_create_ok (n : Nat) {s : GAState} (h : GaChainOk n s) :
    ga_create_give_away gaC s 1 [] 1 (n + 2) false (some ⟨0, 0⟩) 5
      = .ok (gaChainStep n s)
    ∧ GaChainOk (n + 1) (gaChainStep n s)
    ∧ (gaChainStep n s).giveaways s.giveawayIndex
      = some { name := List.take 128 [], start := 1, endBlock := n + 2,
               kycTier1 := false, creator := 1, token := some ⟨0, 0⟩,
               maxJoin := toU32 5 }
    ∧ (∀ g, ¬ g = s.giveawayIndex →
        (gaChainStep n s).giveaways g = s.giveaways g) := by
  obtain ⟨hnow, hidx, htot, hg2u, hlen, hge, hbal⟩ := h
  have h1 : s.now < 1 := by omega
  have h2 : (1 : Nat) < n + 2 := by omega
  have h3 : (s.blockToGiveaway (n + 2)).length < gaC.maxSet := by
    rw [hge (n + 2) (le_refl _)]
    decide
  have h4 : (⟨0, 0⟩ : GATokenInfo).amount + gaC.minBalance
      ≤ depositCreating s.balances gaC.potAccount gaC.potDeposit 1 := by
    unfold depositCreating
    rw [if_neg (by decide : ¬ (1 : Nat) = gaC.potAccount)]
    rw [hbal]
    decide
  have hok := @ga_create_intro gaC s 1 [] 1 (n + 2) false 5 ⟨0, 0⟩ h1 h2 h3 h4
  have hstep : gaChainStep n s
      = { s with
          giveawayIndex := satSucc32 s.giveawayIndex,
          giveaways := fun g => if g = s.giveawayIndex then
              some { name := List.take 128 [], start := 1,
                     endBlock := n + 2, kycTier1 := false, creator := 1,
                     token := some ⟨0, 0⟩, maxJoin := toU32 5 }
            else s.giveaways g,
          blockToGiveaway := fun b => if b = n + 2 then
              s.blockToGiveaway (n + 2) ++ [s.giveawayIndex]
            else s.blockToGiveaway b,
          balances := fun a =>
            if a = 1 then
              depositCreating s.balances gaC.potAccount gaC.potDeposit 1
                - (⟨0, 0⟩ : GATokenInfo).amount
            else if a = gaC.potAccount then
              depositCreating s.balances gaC.potAccount gaC.potDeposit
                gaC.potAccount + (⟨0, 0⟩ : GATokenInfo).amount
            else depositCreating s.balances gaC.potAccount gaC.potDeposit a,
          events := .giveawayCreated s.giveawayIndex :: s.events } := by
    unfold gaChainStep
    rw [hok]
    rfl
  refine ⟨?_, ?_, ?_, ?_⟩
  · rw [hok, hstep]
  · rw [hstep]
    refine ⟨hnow, ?_, htot, hg2u, ?_, ?_, ?_⟩
    · show satSucc32 s.giveawayIndex = min (n + 1) U32MAX
      rw [hidx]
      exact satSucc32_min n
    · intro b
      show (if b = n + 2 then s.blockToGiveaway (n + 2) ++ [s.giveawayIndex]
            else s.blockToGiveaway b).length ≤ 1
      by_cases hb : b = n + 2
      · rw [if_pos hb, hge (n + 2) (le_refl _)]
        simp
      · rw [if_neg hb]
        exact hlen b
    · intro b hb
      show (if b = n + 2 then s.blockToGiveaway (n + 2) ++ [s.giveawayIndex]
            else s.blockToGiveaway b) = []
      rw [if_neg (by omega : ¬ b = n + 2)]
      exact hge b (by omega)
    · show (if (1 : Nat) = 1 then
          depositCreating s.balances gaC.potAccount gaC.potDeposit 1
            - (⟨0, 0⟩ : GATokenInfo).amount
        else if (1 : Nat) = gaC.potAccount then
          depositCreating s.balances gaC.potAccount gaC.potDeposit
            gaC.potAccount + (⟨0, 0⟩ : GATokenInfo).amount
        else depositCreating s.balances gaC.potAccount gaC.potDeposit 1)
          = 100
      rw [if_pos rfl]
      unfold depositCreating
      rw [if_neg (by decide : ¬ (1 : Nat) = gaC.potAccount)]
      rw [hbal]
      rfl
  · rw [hstep]
    show (if s.giveawayIndex = s.giveawayIndex then _ else _) = _
    rw [if_pos rfl]
  · intro g hg2
    rw [hstep]
    show (if g = s.giveawayIndex then _ else _) = _
    rw [if_neg hg2]

theorem gaChain_ok : ∀ n, GaChainOk n (gaChain n) := by
  intro n
  induction n with
  | zero =>
    refine ⟨rfl, ?_, ?_, ?_, ?_, ?_, rfl⟩ <;> simp [gaChain, ga_init]
  | succ n ih => exact (gaChain_create_ok n ih).2.1

theorem gaChain_reach (n : Nat) :
    Relation.ReflTransGen (GAStep gaC)
      (ga_init (fun _ => false) (fun _ => 100)) (gaChain n) := by
  induction n with
  | zero => exact Relation.ReflTransGen.refl
  | succ n ih =>
    refine Relation.ReflTransGen.tail ih ?_
    exact GAStep.create (gaChain n) 1 [] 1 (n + 2) false (some ⟨0, 0⟩) 5
      (gaChain (n + 1)) (gaChain_create_ok n (gaChain_ok n)).1

/-- The throwaway giveaway config stored at index `u32::MAX` after the
`2^32`-th creation. -/
def gaDummyA : GAConfig :=
  { name := List.take 128 [], start := 1, endBlock := U32MAX + 2,
    kycTier1 := false, creator := 1, token := some ⟨0, 0⟩,
    maxJoin := toU32 5 }

theorem gaChain_succ_eq (n : Nat) :
    gaChain (n + 1) = gaChainStep n (gaChain n) := rfl

theorem gaA_idx : (gaChain (U32MAX + 1)).giveawayIndex = U32MAX := by
  rw [(gaChain_ok (U32MAX + 1)).2.1]
  exact Nat.min_eq_right (Nat.le_succ U32MAX)

theorem gaA_cfg : (gaChain (U32MAX + 1)).giveaways U32MAX = some gaDummyA := by
  have h := (gaChain_create_ok U32MAX (gaChain_ok U32MAX)).2.2.1
  have hidx : (gaChain U32MAX).giveawayIndex = U32MAX := by
    rw [(gaChain_ok U32MAX).2.1]
    exact Nat.min_self _
  rw [hidx] at h
  rw [gaChain_succ_eq]
  exact h

/-- The saturated state, one block later. -/
def gaSatB : GAState :=
  { gaChain (U32MAX + 1) with now := (gaChain (U32MAX + 1)).now + 1 }

/-- Two accounts join giveaway `u32::MAX`. -/
def gaSatC : GAState := okOr gaSatB (ga_participate gaSatB 11 U32MAX)

def gaSatD : GAState := okOr gaSatC (ga_participate gaSatC 12 U32MAX)

/-- A further creation overwrites the config at index `u32::MAX` with
capacity 1 while two participants are already stored there. -/
def gaSatE : GAState :=
  okOr gaSatD (ga_create_give_away gaC gaSatD 1 [] 2 3 false (some ⟨0, 0⟩) 1)


/-! Projection lemmas for `GAState.mk`, used to read fields of states built
by record update over large (deeply recursive) base states without forcing
the kernel to evaluate the base. -/

theorem gamk_giveawayIndex (a1 : Nat) (a2 : Nat → Option GAConfig)
    (a3 : Nat → Option Nat) (a4 : Nat → Nat → Option Nat) (a5 : Nat → Nat)
    (a6 : Nat → Nat → Bool) (a7 : Nat → List Nat)
    (a8 : Nat → Option (List Nat × List Nat)) (a9 : Nat → Bool)
    (a10 : Nat → Nat) (a11 : List GAEvent) (a12 : Nat) :
    (GAState.mk a1 a2 a3 a4 a5 a6 a7 a8 a9 a10 a11 a12).giveawayIndex
      = a1 := rfl

theorem gamk_giveaways (a1 : Nat) (a2 : Nat → Option GAConfig)
    (a3 : Nat → Option Nat) (a4 : Nat → Nat → Option Nat) (a5 : Nat → Nat)
    (a6 : Nat → Nat → Bool) (a7 : Nat → List Nat)
    (a8 : Nat → Option (List Nat × List Nat)) (a9 : Nat → Bool)
    (a10 : Nat → Nat) (a11 : List GAEvent) (a12 : Nat) :
    (GAState.mk a1 a2 a3 a4 a5 a6 a7 a8 a9 a10 a11 a12).giveaways = a2 := rfl

theorem gamk_participants (a1 : Nat) (a2 : Nat → Option GAConfig)
    (a3 : Nat → Option Nat) (a4 : Nat → Nat → Option Nat) (a5 : Nat → Nat)
    (a6 : Nat → Nat → Bool) (a7 : Nat → List Nat)
    (a8 : Nat → Option (List Nat × List Nat)) (a9 : Nat → Bool)
    (a10 : Nat → Nat) (a11 : List GAEvent) (a12 : Nat) :
    (GAState.mk a1 a2 a3 a4 a5 a6 a7 a8 a9 a10 a11 a12).participants
      = a4 := rfl

theorem gamk_total (a1 : Nat) (a2 : Nat → Option GAConfig)
    (a3 : Nat → Option Nat) (a4 : Nat → Nat → Option Nat) (a5 : Nat → Nat)
    (a6 : Nat → Nat → Bool) (a7 : Nat → List Nat)
    (a8 : Nat → Option (List Nat × List Nat)) (a9 : Nat → Bool)
    (a10 : Nat → Nat) (a11 : List GAEvent) (a12 : Nat) :
    GAState.totalParticipantByGiveaway
      (GAState.mk a1 a2 a3 a4 a5 a6 a7 a8 a9 a10 a11 a12) = a5 := rfl

theorem gamk_g2u (a1 : Nat) (a2 : Nat → Option GAConfig)
    (a3 : Nat → Option Nat) (a4 : Nat → Nat → Option Nat) (a5 : Nat → Nat)
    (a6 : Nat → Nat → Bool) (a7 : Nat → List Nat)
    (a8 : Nat → Option (List Nat × List Nat)) (a9 : Nat → Bool)
    (a10 : Nat → Nat) (a11 : List GAEvent) (a12 : Nat) :
    (GAState.mk a1 a2 a3 a4 a5 a6 a7 a8 a9 a10 a11 a12).giveawayToUser
      = a6 := rfl

theorem gamk_blk (a1 : Nat) (a2 : Nat → Option GAConfig)
    (a3 : Nat → Option Nat) (a4 : Nat → Nat → Option Nat) (a5 : Nat → Nat)
    (a6 : Nat → Nat → Bool) (a7 : Nat → List Nat)
    (a8 : Nat → Option (List Nat × List Nat)) (a9 : Nat → Bool)
    (a10 : Nat → Nat) (a11 : List GAEvent) (a12 : Nat) :
    (GAState.mk a1 a2 a3 a4 a5 a6 a7 a8 a9 a10 a11 a12).blockToGiveaway
      = a7 := rfl

theorem gamk_bal (a1 : Nat) (a2 : Nat → Option GAConfig)
    (a3 : Nat → Option Nat) (a4 : Nat → Nat → Option Nat) (a5 : Nat → Nat)
    (a6 : Nat → Nat → Bool) (a7 : Nat → List Nat)
    (a8 : Nat → Option (List Nat × List Nat)) (a9 : Nat → Bool)
    (a10 : Nat → Nat) (a11 : List GAEvent) (a12 : Nat) :
    (GAState.mk a1 a2 a3 a4 a5 a6 a7 a8 a9 a10 a11 a12).balances
      = a10 := rfl

theorem gamk_now (a1 : Nat) (a2 : Nat → Option GAConfig)
    (a3 : Nat → Option Nat) (a4 : Nat → Nat → Option Nat) (a5 : Nat → Nat)
    (a6 : Nat → Nat → Bool) (a7 : Nat → List Nat)
    (a8 : Nat → Option (List Nat × List Nat)) (a9 : Nat → Bool)
    (a10 : Nat → Nat) (a11 : List GAEvent) (a12 : Nat) :
    (GAState.mk a1 a2 a3 a4 a5 a6 a7 a8 a9 a10 a11 a12).now = a12 := rfl

theorem gaSatB_now : gaSatB.now = 1 := by
  unfold gaSatB
  rw [gamk_now]
  rw [(gaChain_ok (U32MAX + 1)).1]

theorem gaSatB_cfg : gaSatB.giveaways U32MAX = some gaDummyA := by
  unfold gaSatB
  rw [gamk_giveaways]
  exact gaA_cfg

theorem gaSatB_idx : gaSatB.giveawayIndex = U32MAX := by
  unfold gaSatB
  rw [gamk_giveawayIndex]
  exact gaA_idx

theorem gaSatB_tot : gaSatB.totalParticipantByGiveaway U32MAX = 0 := by
  unfold gaSatB
  rw [gamk_total]
  exact (gaChain_ok (U32MAX + 1)).2.2.1 U32MAX

theorem gaSatB_g2u : ∀ u, gaSatB.giveawayToUser U32MAX u = false := by
  intro u
  unfold gaSatB
  rw [gamk_g2u]
  exact (gaChain_ok (U32MAX + 1)).2.2.2.1 U32MAX u

theorem gaSatB_blk : (gaSatB.blockToGiveaway 3).length ≤ 1 := by
  unfold gaSatB
  rw [gamk_blk]
  exact (gaChain_ok (U32MAX + 1)).2.2.2.2.1 3

theorem gaSatB_bal : gaSatB.balances 1 = 100 := by
  unfold gaSatB
  rw [gamk_bal]
  exact (gaChain_ok (U32MAX + 1)).2.2.2.2.2.2

theorem gaSatC_eq : gaSatC
    = { gaSatB with
        participants := fun gi p =>
          if gi = U32MAX ∧ p = gaSatB.totalParticipantByGiveaway U32MAX then
            some 11
          else gaSatB.participants gi p,
        totalParticipantByGiveaway := fun gi =>
          if gi = U32MAX then
            satSucc32 (gaSatB.totalParticipantByGiveaway U32MAX)
          else gaSatB.totalParticipantByGiveaway gi,
        events := .participated U32MAX 11 :: gaSatB.events } := by
  unfold gaSatC
  rw [ga_participate_intro gaSatB_cfg
    (by rw [gaSatB_now]; exact Nat.le_add_left 1 (U32MAX + 1))
    (by rw [gaSatB_now]; decide)
    rfl (gaSatB_g2u 11) (by rw [gaSatB_tot]; decide)]
  rfl

theorem gaSatC_ok : ga_participate gaSatB 11 U32MAX = .ok gaSatC := by
  rw [ga_participate_intro gaSatB_cfg
    (by rw [gaSatB_now]; exact Nat.le_add_left 1 (U32MAX + 1))
    (by rw [gaSatB_now]; decide)
    rfl (gaSatB_g2u 11) (by rw [gaSatB_tot]; decide), gaSatC_eq]

theorem gaSatC_cfg : gaSatC.giveaways U32MAX = some gaDummyA := by
  rw [gaSatC_eq, gamk_giveaways]
  exact gaSatB_cfg

theorem gaSatC_now : gaSatC.now = 1 := by
  rw [gaSatC_eq, gamk_now]
  exact gaSatB_now

theorem gaSatC_idx : gaSatC.giveawayIndex = U32MAX := by
  rw [gaSatC_eq, gamk_giveawayIndex]
  exact gaSatB_idx

theorem gaSatC_g2u : ∀ u, gaSatC.giveawayToUser U32MAX u = false := by
  intro u
  rw [gaSatC_eq, gamk_g2u]
  exact gaSatB_g2u u

theorem gaSatC_tot : gaSatC.totalParticipantByGiveaway U32MAX = 1 := by
  rw [gaSatC_eq, gamk_total]
  show (if U32MAX = U32MAX then
      satSucc32 (gaSatB.totalParticipantByGiveaway U32MAX)
    else gaSatB.totalParticipantByGiveaway U32MAX) = 1
  rw [if_pos rfl, gaSatB_tot]
  decide

theorem gaSatC_blk : (gaSatC.blockToGiveaway 3).length ≤ 1 := by
  rw [gaSatC_eq, gamk_blk]
  exact gaSatB_blk

theorem gaSatC_bal : gaSatC.balances 1 = 100 := by
  rw [gaSatC_eq, gamk_bal]
  exact gaSatB_bal

theorem gaSatD_eq : gaSatD
    = { gaSatC with
        participants := fun gi p =>
          if gi = U32MAX ∧ p = gaSatC.totalParticipantByGiveaway U32MAX then
            some 12
          else gaSatC.participants gi p,
        totalParticipantByGiveaway := fun gi =>
          if gi = U32MAX then
            satSucc32 (gaSatC.totalParticipantByGiveaway U32MAX)
          else gaSatC.totalParticipantByGiveaway gi,
        events := .participated U32MAX 12 :: gaSatC.events } := by
  unfold gaSatD
  rw [ga_participate_intro gaSatC_cfg
    (by rw [gaSatC_now]; exact Nat.le_add_left 1 (U32MAX + 1))
    (by rw [gaSatC_now]; decide)
    rfl (gaSatC_g2u 12) (by rw [gaSatC_tot]; decide)]
  rfl

theorem gaSatD_ok : ga_participate gaSatC 12 U32MAX = .ok gaSatD := by
  rw [ga_participate_intro gaSatC_cfg
    (by rw [gaSatC_now]; exact Nat.le_add_left 1 (U32MAX + 1))
    (by rw [gaSatC_now]; decide)
    rfl (gaSatC_g2u 12) (by rw [gaSatC_tot]; decide), gaSatD_eq]

theorem gaSatD_now : gaSatD.now = 1 := by
  rw [gaSatD_eq, gamk_now]
  exact gaSatC_now

theorem gaSatD_idx : gaSatD.giveawayIndex = U32MAX := by
  rw [gaSatD_eq, gamk_giveawayIndex]
  exact gaSatC_idx

theorem gaSatD_tot : gaSatD.totalParticipantByGiveaway U32MAX = 2 := by
  rw [gaSatD_eq, gamk_total]
  show (if U32MAX = U32MAX then
      satSucc32 (gaSatC.totalParticipantByGiveaway U32MAX)
    else gaSatC.totalParticipantByGiveaway U32MAX) = 2
  rw [if_pos rfl, gaSatC_tot]
  decide

theorem gaSatD_blk : (gaSatD.blockToGiveaway 3).length < gaC.maxSet := by
  rw [gaSatD_eq, gamk_blk]
  have h := gaSatC_blk
  have h16 : gaC.maxSet = 16 := rfl
  omega

theorem gaSatD_bal : (⟨0, 0⟩ : GATokenInfo).amount + gaC.minBalance
    ≤ depositCreating gaSatD.balances gaC.potAccount gaC.potDeposit 1 := by
  unfold depositCreating
  rw [if_neg (by decide : ¬ (1 : Nat) = gaC.potAccount)]
  have hb : gaSatD.balances 1 = 100 := by
    rw [gaSatD_eq, gamk_bal]
    exact gaSatC_bal
  rw [hb]
  decide

/-- The overwriting config stored at index `u32::MAX` by the final create. -/
def gaEvilCfg : GAConfig :=
  { name := List.take 128 [], start := 2, endBlock := 3, kycTier1 := false,
    creator := 1, token := some ⟨0, 0⟩, maxJoin := toU32 1 }

theorem gaSatE_eq : gaSatE
    = { gaSatD with
        giveawayIndex := satSucc32 gaSatD.giveawayIndex,
        giveaways := fun g => if g = gaSatD.giveawayIndex then
            some { name := List.take 128 [], start := 2, endBlock := 3,
                   kycTier1 := false, creator := 1, token := some ⟨0, 0⟩,
                   maxJoin := toU32 1 }
          else gaSatD.giveaways g,
        blockToGiveaway := fun b => if b = 3 then
            gaSatD.blockToGiveaway 3 ++ [gaSatD.giveawayIndex]
          else gaSatD.blockToGiveaway b,
        balances := fun a =>
          if a = 1 then
            depositCreating gaSatD.balances gaC.potAccount gaC.potDeposit 1
              - (⟨0, 0⟩ : GATokenInfo).amount
          else if a = gaC.potAccount then
            depositCreating gaSatD.balances gaC.potAccount gaC.potDeposit
              gaC.potAccount + (⟨0, 0⟩ : GATokenInfo).amount
          else depositCreating gaSatD.balances gaC.potAccount gaC.potDeposit a,
        events := .giveawayCreated gaSatD.giveawayIndex :: gaSatD.events } := by
  unfold gaSatE
  rw [@ga_create_intro gaC gaSatD 1 [] 2 3 false 1 ⟨0, 0⟩
    (by rw [gaSatD_now]; decide) (by decide) gaSatD_blk gaSatD_bal]
  rfl

theorem gaSatE_ok :
    ga_create_give_away gaC gaSatD 1 [] 2 3 false (some ⟨0, 0⟩) 1
      = .ok gaSatE := by
  rw [@ga_create_intro gaC gaSatD 1 [] 2 3 false 1 ⟨0, 0⟩
    (by rw [gaSatD_now]; decide) (by decide) gaSatD_blk gaSatD_bal,
    gaSatE_eq]

theorem gaSatE_cfg : gaSatE.giveaways U32MAX = some gaEvilCfg := by
  rw [gaSatE_eq, gamk_giveaways]
  show (if U32MAX = gaSatD.giveawayIndex then some gaEvilCfg
    else gaSatD.giveaways U32MAX) = some gaEvilCfg
  rw [if_pos gaSatD_idx.symm]

theorem gaSatE_tot : gaSatE.totalParticipantByGiveaway U32MAX = 2 := by
  rw [gaSatE_eq, gamk_total]
  exact gaSatD_tot

theorem gaSatE_reach : GAReach gaC gaSatE := by
  refine ⟨fun _ => false, fun _ => 100, ?_⟩
  refine Relation.ReflTransGen.tail (Relation.ReflTransGen.tail
    (Relation.ReflTransGen.tail (Relation.ReflTransGen.tail
      (gaChain_reach (U32MAX + 1)) ?_)
      (GAStep.participate gaSatB 11 U32MAX gaSatC gaSatC_ok))
    (GAStep.participate gaSatC 12 U32MAX gaSatD gaSatD_ok))
    (GAStep.create gaSatD 1 [] 2 3 false (some ⟨0, 0⟩) 1 gaSatE gaSatE_ok)
  exact GAStep.advance (gaChain (U32MAX + 1))

/-- Claim C9: in the giveaway pallet every reachable state stores a
participant at position `i` of giveaway `g` exactly when
`i < TotalParticipantByGiveaway g` (the dense-prefix invariant, preserved by
`participate` inserting at position `total` and incrementing the counter
together), so the winner lookup of `set_block_result` at position
`remapIndex − 1` never finds a missing entry when the participant count is
non-zero. -/
theorem ga_dense_prefix (c : GAConsts) (s : GAState) (h : GAReach c s) :
    (∀ g i, (s.participants g i).isSome
      ↔ i < s.totalParticipantByGiveaway g)
    ∧ ∀ g r, 0 < s.totalParticipantByGiveaway g →
        (s.participants g (remapIndex (low_u32 r)
          (s.totalParticipantByGiveaway g) - 1)).isSome := by
  obtain ⟨_, _, _, _, _, _, hdense⟩ := ga_reach_inv h
  refine ⟨hdense, ?_⟩
  intro g r ht
  rw [hdense]
  unfold remapIndex
  dsimp only
  by_cases h0 : low_u32 r % s.totalParticipantByGiveaway g = 0
  · rw [if_pos h0]
    omega
  · rw [if_neg h0]
    have hlt := Nat.mod_lt (low_u32 r) ht
    omega

/-- Small reachable giveaway scenario: one giveaway, one participant. -/
def gaW0 : GAState := ga_init (fun _ => false) (fun _ => 100)

def gaW1 : GAState :=
  okOr gaW0 (ga_create_give_away gaC gaW0 1 [] 1 9 false (some ⟨0, 5⟩) 7)

def gaW2 : GAState := { gaW1 with now := gaW1.now + 1 }

def gaW3 : GAState := okOr gaW2 (ga_participate gaW2 4 0)

theorem gaW1_ok :
    ga_create_give_away gaC gaW0 1 [] 1 9 false (some ⟨0, 5⟩) 7
      = .ok gaW1 := by rfl

theorem gaW3_ok : ga_participate gaW2 4 0 = .ok gaW3 := by rfl

theorem gaW3_reach : GAReach gaC gaW3 :=
  ⟨fun _ => false, fun _ => 100,
    Relation.ReflTransGen.tail (Relation.ReflTransGen.tail
      (Relation.ReflTransGen.tail Relation.ReflTransGen.refl
        (GAStep.create gaW0 1 [] 1 9 false (some ⟨0, 5⟩) 7 gaW1 gaW1_ok))
      (GAStep.advance gaW1))
      (GAStep.participate gaW2 4 0 gaW3 gaW3_ok)⟩

theorem ga_dense_prefix_witness :
    ((gaW3.participants 9 0).isSome
      ↔ 0 < gaW3.totalParticipantByGiveaway 9)
    ∧ (gaW3.participants 0 (remapIndex (low_u32 12)
        (gaW3.totalParticipantByGiveaway 0) - 1)).isSome := by
  have h := ga_dense_prefix gaC gaW3 gaW3_reach
  exact ⟨h.1 9 0, h.2 0 12 (by decide)⟩

/-- Claim C8 (counterexample): the capacity invariant fails in a reachable
state.  `GiveawayIndex` is advanced with `u32::saturating_add(1)`, so after
`2^32` creations the counter sticks at `u32::MAX` and the next
`create_give_away` overwrites the config stored at index `u32::MAX`.  In the
reachable state `gaSatE`, giveaway `u32::MAX` holds two stored participants
while its (overwritten) config allows `max_join = 1`. -/
theorem giveaway_capacity_saturation_cx :
    GAReach gaC gaSatE
    ∧ gaSatE.giveaways U32MAX = some gaEvilCfg
    ∧ gaEvilCfg.maxJoin = 1
    ∧ gaSatE.totalParticipantByGiveaway U32MAX = 2 :=
  ⟨gaSatE_reach, gaSatE_cfg, rfl, gaSatE_tot⟩

/-- Claim C8 (amended): in the lottery pallet, the number of participants
stored under any `(kind, index, selection)` key never exceeds
`MaxParticipants` in any reachable state, and a registration attempted on a
full collection fails with `TooManyParticipants` while leaving the whole
state — stake ledger and escrow balance included — unchanged.  In the
giveaway pallet the analogous bound `total ≤ max_join` holds in every
reachable state in which the `u32` giveaway index counter has not saturated
(fewer than `2^32` creations; once it saturates, a new creation overwrites
the config at index `u32::MAX` and its `max_join` may undercut the existing
participant count), and a registration at capacity fails with
`TooManyParticipants` leaving the state unchanged. -/
theorem capacity_invariant_amended (c : LotteryConsts) (gc : GAConsts) :
    (∀ s, LotteryReach c s →
      ∀ k i sel, (s.participants k i sel).length ≤ c.maxParticipants)
    ∧ (∀ s caller kind index selection cfg,
        s.lottery kind index = some cfg →
        s.now < cfg.start + cfg.length →
        c.maxParticipants ≤ (s.participants kind index selection).length →
        lot_do_buy_ticket c s caller kind index selection
          = .error .tooManyParticipants
        ∧ lot_buy_ticket c s caller kind index selection = .ok s)
    ∧ (∀ s, GAReach gc s → s.giveawayIndex < U32MAX →
        ∀ g cfg, s.giveaways g = some cfg →
          s.totalParticipantByGiveaway g ≤ cfg.maxJoin)
    ∧ (∀ s who index g, s.giveaways index = some g →
        s.now ≤ g.endBlock → g.start ≤ s.now →
        ¬ (g.kycTier1 ∧ ¬ s.didVerified who) →
        s.giveawayToUser index who = false →
        g.maxJoin ≤ s.totalParticipantByGiveaway index →
        ga_participate s who index = .error .tooManyParticipants
        ∧ dispatch (fun t => ga_participate t who index) s
          = (s, some .tooManyParticipants)) := by
  refine ⟨lot_reach_participants_bounded c, ?_, ?_, ?_⟩
  · intro s caller kind index selection cfg hcfg hnow hfull
    have h1 : lot_do_buy_ticket c s caller kind index selection
        = .error .tooManyParticipants := by
      unfold lot_do_buy_ticket
      simp only [hcfg]
      rw [if_pos hnow, if_neg (by omega)]
    refine ⟨h1, ?_⟩
    unfold lot_buy_ticket
    rw [h1]
  · intro s hreach hsm g cfg hg
    exact (ga_reach_inv hreach).2.2.2.2.2.1 hsm g cfg hg
  · intro s who index g hg hend hstart hkyc hg2u hfull
    have h1 : ga_participate s who index = .error .tooManyParticipants := by
      unfold ga_participate
      simp only [hg]
      rw [if_pos hend, if_pos hstart, if_neg hkyc,
        if_neg (by rw [hg2u]; simp), if_neg (by omega)]
    refine ⟨h1, ?_⟩
    unfold dispatch
    simp only [h1]

/-- Concrete lottery constants with capacity 1 for the full-collection
scenario. -/
def lotCfull : LotteryConsts :=
  { maxGenerateRandom := 3, maxParticipants := 1, minBalance := 1,
    potAccount := 999 }

/-- A lottery state whose participant collection at `(0, 0, 0)` is full. -/
def lotSfull : LotteryState :=
  { lotteryIndex := fun _ => 1,
    lottery := fun k i => if k = 0 ∧ i = 0 then
        some { price := 2, start := 0, length := 5, delay := 1,
               repeats := false }
      else none,
    participants := fun _ _ _ => [5], balances := fun _ => 50, events := [],
    now := 0 }

/-- A giveaway state whose giveaway 0 is at its `max_join` capacity. -/
def gaSfull : GAState :=
  { giveawayIndex := 1,
    giveaways := fun g => if g = 0 then
        some { name := [], start := 0, endBlock := 9, kycTier1 := false,
               creator := 1, token := some ⟨0, 5⟩, maxJoin := 1 }
      else none,
    roundWinner := fun _ => none,
    participants := fun g p => if g = 0 ∧ p = 0 then some 7 else none,
    totalParticipantByGiveaway := fun g => if g = 0 then 1 else 0,
    giveawayToUser := fun _ _ => false, blockToGiveaway := fun _ => [],
    blockToResults := fun _ => none, didVerified := fun _ => false,
    balances := fun _ => 50, events := [], now := 3 }

theorem capacity_invariant_witness :
    ((lot_init (fun _ => 50)).participants 0 0 0).length
      ≤ lotW.maxParticipants
    ∧ lot_do_buy_ticket lotCfull lotSfull 8 0 0 0
        = .error .tooManyParticipants
    ∧ lot_buy_ticket lotCfull lotSfull 8 0 0 0 = .ok lotSfull
    ∧ gaW3.totalParticipantByGiveaway 0
      ≤ ((gaW3.giveaways 0).getD
          { name := [], start := 0, endBlock := 0, kycTier1 := false,
            creator := 0, token := none, maxJoin := 0 }).maxJoin
    ∧ ga_participate gaSfull 8 0 = .error .tooManyParticipants
    ∧ dispatch (fun t => ga_participate t 8 0) gaSfull
        = (gaSfull, some .tooManyParticipants) := by
  have h := capacity_invariant_amended lotW gaC
  have hfull := capacity_invariant_amended lotCfull gaC
  have h2 := (hfull.2.1 lotSfull 8 0 0 0
    { price := 2, start := 0, length := 5, delay := 1, repeats := false }
    (by decide) (by decide) (by decide))
  have h3 := (h.2.2.1 gaW3 gaW3_reach (by decide) 0
    { name := List.take 128 [], start := 1, endBlock := 9,
      kycTier1 := false, creator := 1, token := some ⟨0, 5⟩,
      maxJoin := toU32 7 }
    (by rfl))
  have h4 := (h.2.2.2 gaSfull 8 0
    { name := [], start := 0, endBlock := 9, kycTier1 := false,
      creator := 1, token := some ⟨0, 5⟩, maxJoin := 1 }
    (by decide) (by decide) (by decide) (by decide) (by decide) (by decide))
  exact ⟨h.1 (lot_init (fun _ => 50)) ⟨fun _ => 50,
      Relation.ReflTransGen.refl⟩ 0 0 0,
    h2.1, h2.2, by rw [(by rfl : (gaW3.giveaways 0).getD
      { name := [], start := 0, endBlock := 0, kycTier1 := false,
        creator := 0, token := none, maxJoin := 0 }
      = { name := List.take 128 [], start := 1, endBlock := 9,
          kycTier1 := false, creator := 1, token := some ⟨0, 5⟩,
          maxJoin := toU32 7 })]; exact h3,
    h4.1, h4.2⟩

/-- Precise effect of one winner-loop iteration. -/
theorem ga_process_pair_ok {s s' : GAState} {g r : Nat}
    (h : ga_process_pair s g r = .ok s') :
    (0 < s.totalParticipantByGiveaway g →
      ∃ w, s.participants g (remapIndex (low_u32 r)
          (s.totalParticipantByGiveaway g) - 1) = some w
        ∧ s'.roundWinner = (fun gi => if gi = g then some w
            else s.roundWinner gi)
        ∧ s'.events = .winner g w true :: s.events)
    ∧ (s.totalParticipantByGiveaway g = 0 →
      ∃ cfg, s.giveaways g = some cfg
        ∧ s'.roundWinner = (fun gi => if gi = g then some cfg.creator
            else s.roundWinner gi)
        ∧ s'.events = .winner g cfg.creator false :: s.events) := by
  unfold ga_process_pair at h
  dsimp only at h
  repeat' split at h
  any_goals exact Except.noConfusion h
  · rename_i hne hopt w hw
    injection h with h2
    subst h2
    constructor
    · intro _
      exact ⟨w, hw, rfl, rfl⟩
    · intro h0
      exact absurd h0 hne
  · rename_i hz hopt cfg hcfg
    injection h with h2
    subst h2
    constructor
    · intro h0
      rw [of_not_not hz] at h0
      exact absurd h0 (by omega)
    · intro _
      exact ⟨cfg, hcfg, rfl, rfl⟩

theorem ga_process_pair_rw_other {s s' : GAState} {g r g' : Nat}
    (h : ga_process_pair s g r = .ok s') (hne : ¬ g' = g) :
    s'.roundWinner g' = s.roundWinner g' := by
  unfold ga_process_pair at h
  dsimp only at h
  repeat' split at h
  any_goals exact Except.noConfusion h
  all_goals injection h with h2
  all_goals subst h2
  all_goals exact if_neg hne

theorem ga_process_pair_events_mono {s s' : GAState} {g r : Nat}
    (h : ga_process_pair s g r = .ok s') :
    ∀ e, e ∈ s.events → e ∈ s'.events := by
  unfold ga_process_pair at h
  dsimp only at h
  repeat' split at h
  any_goals exact Except.noConfusion h
  all_goals injection h with h2
  all_goals subst h2
  all_goals exact fun e he => List.mem_cons_of_mem _ he

theorem ga_process_pairs_rw_other : ∀ {ps : List (Nat × Nat)} {s s' : GAState},
    ga_process_pairs ps s = .ok s' → ∀ g, g ∉ ps.map Prod.fst →
    s'.roundWinner g = s.roundWinner g
  | [], s, s', h => by
    injection h with h2
    subst h2
    exact fun g _ => rfl
  | (g0, r0) :: rest, s, s', h => by
    intro g hg
    unfold ga_process_pairs at h
    split at h
    · exact Except.noConfusion h
    · rename_i s1 hpair
      simp only [List.map_cons, List.mem_cons, not_or] at hg
      rw [ga_process_pairs_rw_other h g (by simpa using hg.2)]
      exact ga_process_pair_rw_other hpair hg.1

theorem ga_process_pairs_events_mono : ∀ {ps : List (Nat × Nat)}
    {s s' : GAState}, ga_process_pairs ps s = .ok s' →
    ∀ e, e ∈ s.events → e ∈ s'.events
  | [], s, s', h => by
    injection h with h2
    subst h2
    exact fun e he => he
  | (g0, r0) :: rest, s, s', h => by
    intro e he
    unfold ga_process_pairs at h
    split at h
    · exact Except.noConfusion h
    · rename_i s1 hpair
      exact ga_process_pairs_events_mono h e
        (ga_process_pair_events_mono hpair e he)

theorem ga_process_pairs_winner : ∀ {ps : List (Nat × Nat)} {s s' : GAState},
    ga_process_pairs ps s = .ok s' → (ps.map Prod.fst).Nodup →
    ∀ g r, (g, r) ∈ ps →
    (0 < s.totalParticipantByGiveaway g →
      ∃ w, s.participants g (remapIndex (low_u32 r)
          (s.totalParticipantByGiveaway g) - 1) = some w
        ∧ s'.roundWinner g = some w
        ∧ GAEvent.winner g w true ∈ s'.events)
    ∧ (s.totalParticipantByGiveaway g = 0 →
      ∃ cfg, s.giveaways g = some cfg
        ∧ s'.roundWinner g = some cfg.creator
        ∧ GAEvent.winner g cfg.creator false ∈ s'.events)
  | [], s, s', h, hnd, g, r, hmem => absurd hmem (List.not_mem_nil _)
  | (g0, r0) :: rest, s, s', h, hnd, g, r, hmem => by
    unfold ga_process_pairs at h
    split at h
    · exact Except.noConfusion h
    · rename_i s1 hpair
      simp only [List.map_cons, List.nodup_cons] at hnd
      rcases List.mem_cons.mp hmem with heq | htail
      · have hg : g = g0 ∧ r = r0 := by
          constructor <;> [exact congrArg Prod.fst heq;
            exact congrArg Prod.snd heq]
        obtain ⟨hg1, hg2⟩ := hg
        subst hg1
        subst hg2
        have hpo := ga_process_pair_ok hpair
        have hrw : s'.roundWinner g = s1.roundWinner g :=
          ga_process_pairs_rw_other h g hnd.1
        constructor
        · intro hpos
          obtain ⟨w, hw, hrw1, hev1⟩ := hpo.1 hpos
          refine ⟨w, hw, ?_, ?_⟩
          · rw [hrw]
            simp [hrw1]
          · refine ga_process_pairs_events_mono h _ ?_
            rw [hev1]
            exact List.mem_cons_self _ _
        · intro hzero
          obtain ⟨cfg, hcfg, hrw1, hev1⟩ := hpo.2 hzero
          refine ⟨cfg, hcfg, ?_, ?_⟩
          · rw [hrw]
            simp [hrw1]
          · refine ga_process_pairs_events_mono h _ ?_
            rw [hev1]
            exact List.mem_cons_self _ _
      · have hfr := ga_process_pair_frame hpair
        have hrec := ga_process_pairs_winner h hnd.2 g r htail
        rw [hfr.2.2.1, hfr.2.2.2.1, hfr.2.1] at hrec
        exact hrec

/-- Sublist fact relating the first components of a zip to the first list. -/
theorem map_fst_zip_sublist {α β : Type} :
    ∀ (l1 : List α) (l2 : List β),
      ((l1.zip l2).map Prod.fst).Sublist l1
  | [], _ => by simp
  | _ :: _, [] => by simp
  | a :: l1, b :: l2 => by
    rw [List.zip_cons_cons, List.map_cons]
    exact (map_fst_zip_sublist l1 l2).cons₂ a

theorem gamk_roundWinner (a1 : Nat) (a2 : Nat → Option GAConfig)
    (a3 : Nat → Option Nat) (a4 : Nat → Nat → Option Nat) (a5 : Nat → Nat)
    (a6 : Nat → Nat → Bool) (a7 : Nat → List Nat)
    (a8 : Nat → Option (List Nat × List Nat)) (a9 : Nat → Bool)
    (a10 : Nat → Nat) (a11 : List GAEvent) (a12 : Nat) :
    (GAState.mk a1 a2 a3 a4 a5 a6 a7 a8 a9 a10 a11 a12).roundWinner
      = a3 := rfl

theorem gamk_events (a1 : Nat) (a2 : Nat → Option GAConfig)
    (a3 : Nat → Option Nat) (a4 : Nat → Nat → Option Nat) (a5 : Nat → Nat)
    (a6 : Nat → Nat → Bool) (a7 : Nat → List Nat)
    (a8 : Nat → Option (List Nat × List Nat)) (a9 : Nat → Bool)
    (a10 : Nat → Nat) (a11 : List GAEvent) (a12 : Nat) :
    (GAState.mk a1 a2 a3 a4 a5 a6 a7 a8 a9 a10 a11 a12).events = a11 := rfl

/-- Claim C2: protocol B selection in `set_block_result`.  For every queued
round paired in order with an oracle value, when the participant count is
non-zero the recorded winner is the participant stored at position
`index − 1`, where `index = r mod count` remapped to `count` when the
remainder is zero, and the `Winner` event carries `status = true`; when the
participant count is zero the round's creator is recorded as winner and the
`Winner` event carries `status = false`. -/
theorem giveaway_protocolB_selection {s s' : GAState} {b : Nat}
    {rid res : List Nat}
    (hok : ga_set_block_result s b rid res = .ok s')
    (hnd : (s.blockToGiveaway b).Nodup) (g r : Nat)
    (hmem : (g, r) ∈ (s.blockToGiveaway b).zip (res.take 32)) :
    (0 < s.totalParticipantByGiveaway g →
      ∃ w, s.participants g (remapIndex (low_u32 r)
          (s.totalParticipantByGiveaway g) - 1) = some w
        ∧ s'.roundWinner g = some w
        ∧ GAEvent.winner g w true ∈ s'.events)
    ∧ (s.totalParticipantByGiveaway g = 0 →
      ∃ cfg, s.giveaways g = some cfg
        ∧ s'.roundWinner g = some cfg.creator
        ∧ GAEvent.winner g cfg.creator false ∈ s'.events) := by
  unfold ga_set_block_result at hok
  dsimp only at hok
  repeat' split at hok
  any_goals exact Except.noConfusion hok
  rename_i hnores hblock hlen s2 hloop
  injection hok with h2
  subst h2
  have hnd2 : (((s.blockToGiveaway b).zip (res.take 32)).map
      Prod.fst).Nodup :=
    List.Nodup.sublist (map_fst_zip_sublist _ _) hnd
  have hwin := ga_process_pairs_winner hloop hnd2 g r hmem
  rw [gamk_total, gamk_participants, gamk_giveaways] at hwin
  constructor
  · intro hpos
    obtain ⟨w, hw, hrw, hev⟩ := hwin.1 hpos
    refine ⟨w, hw, ?_, ?_⟩
    · rw [gamk_roundWinner]
      exact hrw
    · rw [gamk_events]
      exact List.mem_cons_of_mem _ hev
  · intro hzero
    obtain ⟨cfg, hcfg, hrw, hev⟩ := hwin.2 hzero
    refine ⟨cfg, hcfg, ?_, ?_⟩
    · rw [gamk_roundWinner]
      exact hrw
    · rw [gamk_events]
      exact List.mem_cons_of_mem _ hev

/-- Concrete scenario for protocol B: giveaway 0 with three participants,
giveaway 1 with none, both maturing at block 9. -/
def gaC2S : GAState :=
  { giveawayIndex := 2,
    giveaways := fun g =>
      if g = 0 then
        some { name := [], start := 1, endBlock := 9, kycTier1 := false,
               creator := 50, token := some ⟨0, 4⟩, maxJoin := 8 }
      else if g = 1 then
        some { name := [], start := 1, endBlock := 9, kycTier1 := false,
               creator := 77, token := some ⟨0, 4⟩, maxJoin := 8 }
      else none,
    roundWinner := fun _ => none,
    participants := fun g p =>
      if g = 0 ∧ p = 0 then some 21
      else if g = 0 ∧ p = 1 then some 22
      else if g = 0 ∧ p = 2 then some 23
      else none,
    totalParticipantByGiveaway := fun g => if g = 0 then 3 else 0,
    giveawayToUser := fun _ _ => false,
    blockToGiveaway := fun b => if b = 9 then [0, 1] else [],
    blockToResults := fun _ => none, didVerified := fun _ => false,
    balances := fun _ => 50, events := [], now := 10 }

def gaC2S' : GAState := okOr gaC2S (ga_set_block_result gaC2S 9 [1, 2] [7, 5])

theorem gaC2S_ok : ga_set_block_result gaC2S 9 [1, 2] [7, 5]
    = .ok gaC2S' := by rfl

theorem giveaway_protocolB_selection_witness :
    gaC2S'.roundWinner 0 = some 21
    ∧ GAEvent.winner 0 21 true ∈ gaC2S'.events
    ∧ gaC2S'.roundWinner 1 = some 77
    ∧ GAEvent.winner 1 77 false ∈ gaC2S'.events := by
  have h0 := (giveaway_protocolB_selection gaC2S_ok (by decide) 0 7
    (by decide)).1 (by decide)
  have h1 := (giveaway_protocolB_selection gaC2S_ok (by decide) 1 5
    (by decide)).2 (by decide)
  obtain ⟨w, hw, hrw, hev⟩ := h0
  obtain ⟨cfg, hcfg, hrw1, hev1⟩ := h1
  have hw21 : some (21 : Nat) = some w := by rw [← hw]; rfl
  injection hw21 with hw21
  subst hw21
  have hcfg2 : some (⟨[], 1, 9, false, 77, some ⟨0, 4⟩, 8⟩ : GAConfig)
      = some cfg := by rw [← hcfg]; rfl
  injection hcfg2 with hcfg2
  rw [← hcfg2] at hrw1 hev1
  exact ⟨hrw, hev, hrw1, hev1⟩

/-- Claim C7: `set_block_result` rejects wholesale a batch whose number of
random values differs from the number of rounds queued for the height:
given a fresh result slot and a past height, a length mismatch fails with
`InvalidResult` and the dispatched state is exactly the original, so no
winner record and no per-height result cache entry is written. -/
theorem giveaway_oracle_batch_validation (s : GAState) (b : Nat)
    (rid res : List Nat)
    (h1 : s.blockToResults b = none) (h2 : b < s.now)
    (h3 : ¬ (s.blockToGiveaway b).length = res.length) :
    ga_set_block_result s b rid res = .error .invalidResult
    ∧ dispatch (fun t => ga_set_block_result t b rid res) s
      = (s, some .invalidResult) := by
  have he : ga_set_block_result s b rid res = .error .invalidResult := by
    unfold ga_set_block_result
    simp only [h1]
    rw [if_pos h2, if_neg h3]
  refine ⟨he, ?_⟩
  unfold dispatch
  simp only [he]

/-- Concrete mismatched oracle batch: one queued round, no values. -/
def gaC7S : GAState :=
  { giveawayIndex := 1,
    giveaways := fun g => if g = 0 then
        some ⟨[], 1, 5, false, 50, some ⟨0, 4⟩, 8⟩ else none,
    roundWinner := fun _ => none, participants := fun _ _ => none,
    totalParticipantByGiveaway := fun _ => 0,
    giveawayToUser := fun _ _ => false,
    blockToGiveaway := fun b => if b = 5 then [0] else [],
    blockToResults := fun _ => none, didVerified := fun _ => false,
    balances := fun _ => 50, events := [], now := 6 }

theorem giveaway_oracle_batch_validation_witness :
    ga_set_block_result gaC7S 5 [1] [] = .error .invalidResult
    ∧ dispatch (fun t => ga_set_block_result t 5 [1] []) gaC7S
      = (gaC7S, some .invalidResult) :=
  giveaway_oracle_batch_validation gaC7S 5 [1] [] (by rfl) (by decide)
    (by decide)

/-- Winner state of the giveaway pallet used for the double-claim scenario:
round 0 resolved with winner 7, token amount 5, pot funded with 100. -/
def gaC1S : GAState :=
  { giveawayIndex := 1,
    giveaways := fun g => if g = 0 then
        some ⟨[], 1, 9, false, 50, some ⟨0, 5⟩, 8⟩ else none,
    roundWinner := fun g => if g = 0 then some 7 else none,
    participants := fun _ _ => none,
    totalParticipantByGiveaway := fun _ => 0,
    giveawayToUser := fun _ _ => false, blockToGiveaway := fun _ => [],
    blockToResults := fun _ => none, didVerified := fun _ => false,
    balances := fun a => if a = 999 then 100 else 50, events := [],
    now := 20 }

def gaC1S1 : GAState := okOr gaC1S (ga_claim_reward gaC gaC1S 0)

def gaC1S2 : GAState := okOr gaC1S1 (ga_claim_reward gaC gaC1S1 0)

/-- Claim C1 (code bug): the giveaway pallet's `claim_reward` never removes
or marks the winner record, so a second claim for the same round pays the
winner again.  From `gaC1S` (winner 7, token amount 5, pot 100) two
successive `claim_reward` calls both succeed and transfer 5 each time. -/
theorem ga_claim_reward_double_pays :
    isOkE (ga_claim_reward gaC gaC1S 0) = true
    ∧ gaC1S1.balances 7 = 55
    ∧ gaC1S1.roundWinner 0 = some 7
    ∧ isOkE (ga_claim_reward gaC gaC1S1 0) = true
    ∧ gaC1S2.balances 7 = 60
    ∧ GAEvent.rewardClaimed 0 7 ∈ gaC1S2.events := by
  refine ⟨rfl, rfl, rfl, rfl, rfl, ?_⟩
  decide

/-- Claim-failure state of the giveaway pallet: round 0 resolved with winner
7 but the pot cannot cover the 500-token prize. -/
def gaC4S : GAState :=
  { giveawayIndex := 1,
    giveaways := fun g => if g = 0 then
        some ⟨[], 1, 9, false, 50, some ⟨0, 500⟩, 8⟩ else none,
    roundWinner := fun g => if g = 0 then some 7 else none,
    participants := fun _ _ => none,
    totalParticipantByGiveaway := fun _ => 0,
    giveawayToUser := fun _ _ => false, blockToGiveaway := fun _ => [],
    blockToResults := fun _ => none, didVerified := fun _ => false,
    balances := fun a => if a = 999 then 100 else 50, events := [],
    now := 20 }

/-- Claim C4 (counterexample): in the giveaway pallet a failed payout
transfer produces no failure notification: the call fails with the transfer
error and the dispatched state — its event list included — is exactly the
original state. -/
theorem ga_claim_fail_no_notification_cx :
    ga_claim_reward gaC gaC4S 0 = .error .insufficientBalance
    ∧ dispatch (fun t => ga_claim_reward gaC t 0) gaC4S
      = (gaC4S, some .insufficientBalance)
    ∧ (dispatch (fun t => ga_claim_reward gaC t 0) gaC4S).1.events
      = gaC4S.events :=
  ⟨rfl, rfl, rfl⟩

/-- Claim C4 (amended): when the payout transfer fails, in both pallets the
winner record is left completely unchanged and the same winner may claim
again later.  In the lucky-number pallet the call still succeeds and a
distinct `RewardClaimedFailed` notification carrying the reward amount is
emitted; in the giveaway pallet the call instead fails with the transfer
error and, dispatch being transactional, no notification of any kind is
emitted. -/
theorem claim_payout_failure_isolation (c : LNConsts) (gc : GAConsts) :
    (∀ s who round number cfg, who ∈ s.winners round →
      s.lottery round = some cfg →
      transferKA c.minBalance s.balances c.potAccount who
        (satMul128 (s.userPredictionValue round who (number % 256))
          cfg.rate) = none →
      ∃ s', ln_claim_reward c s who round number = .ok s'
        ∧ s'.winners = s.winners
        ∧ who ∈ s'.winners round
        ∧ s'.balances = s.balances
        ∧ s'.events = LNEvent.rewardClaimedFailed round who
            (satMul128 (s.userPredictionValue round who (number % 256))
              cfg.rate) :: s.events)
    ∧ (∀ s round g w tok, s.giveaways round = some g →
        s.roundWinner round = some w → g.token = some tok →
        transferKA gc.minBalance s.balances gc.potAccount w tok.amount
          = none →
        ga_claim_reward gc s round = .error .insufficientBalance
        ∧ dispatch (fun t => ga_claim_reward gc t round) s
          = (s, some .insufficientBalance)) := by
  constructor
  · intro s who round number cfg hmem hcfg htr
    have hok : ln_claim_reward c s who round number
        = .ok { s with events := (LNEvent.rewardClaimedFailed round who
            (satMul128 (s.userPredictionValue round who (number % 256))
              cfg.rate) :: s.events) } := by
      unfold ln_claim_reward
      dsimp only
      rw [if_pos hmem]
      simp only [hcfg]
      simp only [htr]
    exact ⟨_, hok, rfl, hmem, rfl, rfl⟩
  · intro s round g w tok hg hw htok htr
    have he : ga_claim_reward gc s round = .error .insufficientBalance := by
      unfold ga_claim_reward
      dsimp only
      simp only [hg, hw, htok, htr]
    refine ⟨he, ?_⟩
    unfold dispatch
    simp only [he]

/-- Lucky-number constants for the concrete scenarios. -/
def lnC : LNConsts :=
  { potAccount := 999, potDeposit := 10, maxSet := 16, minBalance := 1 }

/-- A lucky-number state with a resolved round whose pot cannot pay: winner
7 staked 30 on number 3, rate 50, pot holds only 100. -/
def lnC4S : LNState :=
  { round := 2,
    lottery := fun r => if r = 1 then
        some { minPrice := 2, start := 0, length := 5, delay := 1,
               rate := 50, repeats := true }
      else none,
    participants := fun _ _ => [],
    winners := fun r => if r = 1 then [7] else [],
    userPredictionValue := fun r a n =>
      if r = 1 ∧ a = 7 ∧ n = 3 then 30 else 0,
    balances := fun a => if a = 999 then 100 else 20, events := [],
    now := 8 }

theorem claim_payout_failure_isolation_witness :
    (∃ s', ln_claim_reward lnC lnC4S 7 1 3 = .ok s'
      ∧ s'.winners = lnC4S.winners
      ∧ 7 ∈ s'.winners 1
      ∧ s'.balances = lnC4S.balances
      ∧ s'.events = LNEvent.rewardClaimedFailed 1 7
          (satMul128 (lnC4S.userPredictionValue 1 7 (3 % 256)) 50)
            :: lnC4S.events)
    ∧ ga_claim_reward gaC gaC4S 0 = .error .insufficientBalance
    ∧ dispatch (fun t => ga_claim_reward gaC t 0) gaC4S
      = (gaC4S, some .insufficientBalance) := by
  have h := claim_payout_failure_isolation lnC gaC
  refine ⟨h.1 lnC4S 7 1 3 ⟨2, 0, 5, 1, 50, true⟩ (by decide) (by rfl)
    (by rfl), ?_⟩
  exact h.2 gaC4S 0 ⟨[], 1, 9, false, 50, some ⟨0, 500⟩, 8⟩ 7 ⟨0, 500⟩
    (by rfl) (by rfl) (by rfl) (by rfl)

/-- Claim C3: registration atomicity.  When the stake transfer to the escrow
fails, the lottery `do_buy_ticket` fails with the transfer error and the
swallowing `buy_ticket` returns the state exactly unchanged; the
lucky-number `buy_ticket` fails with the transfer error and the dispatched
state is exactly the original — no participant entry, no stake-ledger entry
and no escrow movement survive the failing registration. -/
theorem registration_transfer_atomicity (c : LotteryConsts) (lc : LNConsts) :
    (∀ s caller kind index selection cfg,
      s.lottery kind index = some cfg →
      s.now < cfg.start + cfg.length →
      (s.participants kind index selection).length < c.maxParticipants →
      transferKA c.minBalance s.balances caller c.potAccount cfg.price
        = none →
      lot_do_buy_ticket c s caller kind index selection
        = .error .insufficientBalance
      ∧ lot_buy_ticket c s caller kind index selection = .ok s)
    ∧ (∀ s caller number amount cfg, number % 256 < 100 →
        s.lottery s.round = some cfg →
        s.now ≤ cfg.start + cfg.length →
        (s.participants s.round (number % 256)).length < lc.maxSet →
        transferKA lc.minBalance s.balances caller lc.potAccount amount
          = none →
        ln_buy_ticket lc s caller number amount
          = .error .insufficientBalance
        ∧ dispatch (fun t => ln_buy_ticket lc t caller number amount) s
          = (s, some .insufficientBalance)) := by
  constructor
  · intro s caller kind index selection cfg hcfg hnow hlen htr
    have he : lot_do_buy_ticket c s caller kind index selection
        = .error .insufficientBalance := by
      unfold lot_do_buy_ticket
      simp only [hcfg]
      rw [if_pos hnow, if_pos hlen]
      simp only [htr]
    refine ⟨he, ?_⟩
    unfold lot_buy_ticket
    rw [he]
  · intro s caller number amount cfg h100 hcfg hend hful htr
    have he : ln_buy_ticket lc s caller number amount
        = .error .insufficientBalance := by
      unfold ln_buy_ticket
      dsimp only
      rw [if_pos h100]
      simp only [hcfg]
      rw [if_pos hend]
      by_cases hm : caller ∈ s.participants s.round (number % 256)
      · rw [if_pos hm]
        simp only [htr]
      · rw [if_neg hm, if_pos hful]
        simp only [htr]
    refine ⟨he, ?_⟩
    unfold dispatch
    simp only [he]

/-- Lottery constants for the C3 witness. -/
def lotC3c : LotteryConsts := ⟨5, 10, 1, 0⟩

/-- Lottery state for the C3 witness: lottery configured at price 10, all
balances zero, so the stake transfer must fail. -/
def lotC3S : LotteryState :=
  { lotteryIndex := fun _ => 0
    lottery := fun _ _ => some ⟨10, 0, 5, 1, false⟩
    participants := fun _ _ _ => []
    balances := fun _ => 0
    events := []
    now := 0 }

/-- Lucky-number constants for the C3 witness. -/
def lnC3c : LNConsts := ⟨0, 0, 5, 1⟩

/-- Lucky-number state for the C3 witness: round configured, all balances
zero, so the stake transfer must fail. -/
def lnC3S : LNState :=
  { round := 0
    lottery := fun _ => some ⟨1, 0, 5, 1, 50, true⟩
    participants := fun _ _ => []
    winners := fun _ => []
    userPredictionValue := fun _ _ _ => 0
    balances := fun _ => 0
    events := []
    now := 0 }

/-- Witness for C3: concrete penniless buyers in both pallets. -/
theorem registration_transfer_atomicity_witness :
    (lot_do_buy_ticket lotC3c lotC3S 7 0 0 2
        = .error .insufficientBalance
      ∧ lot_buy_ticket lotC3c lotC3S 7 0 0 2 = .ok lotC3S)
    ∧ (ln_buy_ticket lnC3c lnC3S 7 3 10 = .error .insufficientBalance
      ∧ dispatch (fun t => ln_buy_ticket lnC3c t 7 3 10) lnC3S
          = (lnC3S, some .insufficientBalance)) := by
  have h := registration_transfer_atomicity lotC3c lnC3c
  exact ⟨h.1 lotC3S 7 0 0 2 ⟨10, 0, 5, 1, false⟩ (by rfl) (by decide)
      (by decide) (by rfl),
    h.2 lnC3S 7 3 10 ⟨1, 0, 5, 1, 50, true⟩ (by decide) (by rfl)
      (by decide) (by decide) (by rfl)⟩

/-- Lucky-number state at the window boundary: config start 0, length 5 and
current height exactly 5, with a funded buyer. -/
def lnC6S : LNState :=
  { round := 0
    lottery := fun _ => some ⟨1, 0, 5, 1, 50, true⟩
    participants := fun _ _ => []
    winners := fun _ => []
    userPredictionValue := fun _ _ _ => 0
    balances := fun _ => 100
    events := []
    now := 5 }

/-- Giveaway state with no stored configuration at any index. -/
def gaC6S : GAState :=
  { giveawayIndex := 0
    giveaways := fun _ => none
    roundWinner := fun _ => none
    participants := fun _ _ => none
    totalParticipantByGiveaway := fun _ => 0
    giveawayToUser := fun _ _ => false
    blockToGiveaway := fun _ => []
    blockToResults := fun _ => none
    didVerified := fun _ => true
    balances := fun _ => 100
    events := []
    now := 0 }

/-- Counterexample for claim C6.  In the lucky-number pallet the window
guard is `now <= start + length`, so at current height exactly
`start + length` (here 5 = 0 + 5) the registration SUCCEEDS even though the
claim says it fails with AlreadyEnded; and in the giveaway pallet a
`participate` on a round with no stored configuration panics
(`GiveAways::<T>::get(index).unwrap()` on `None` aborts the extrinsic)
instead of failing with a NotConfigured error. -/
theorem registration_boundary_cx :
    lnC6S.lottery lnC6S.round = some ⟨1, 0, 5, 1, 50, true⟩
    ∧ lnC6S.now = 0 + 5
    ∧ isOkE (ln_buy_ticket lnC3c lnC6S 7 3 10) = true
    ∧ gaC6S.giveaways 0 = none
    ∧ ga_participate gaC6S 7 0 = .error .panicked :=
  ⟨rfl, rfl, rfl, rfl, rfl⟩

/-- Claim C6 (amended): registration preconditions as the code enforces
them.  Lottery: NotConfigured when no config is stored, AlreadyEnded when
`now >= start + length`, and the swallowing `buy_ticket` returns the state
unchanged either way.  Lucky-number (for a valid number < 100):
NotConfigured when no config, but AlreadyEnded only when
`now > start + length` — the boundary block `now = start + length` is
accepted; the dispatched state is unchanged on both errors.  Giveaway:
a missing configuration makes `participate` panic rather than fail with a
NotConfigured error, and a round whose `end_block` has passed fails with
GiveawayEnded leaving the dispatched state unchanged. -/
theorem registration_preconditions_amended
    (c : LotteryConsts) (lc : LNConsts) :
    (∀ s caller kind index selection, s.lottery kind index = none →
      lot_do_buy_ticket c s caller kind index selection
        = .error .notConfigured
      ∧ lot_buy_ticket c s caller kind index selection = .ok s)
    ∧ (∀ s caller kind index selection cfg,
        s.lottery kind index = some cfg →
        cfg.start + cfg.length ≤ s.now →
        lot_do_buy_ticket c s caller kind index selection
          = .error .alreadyEnded
        ∧ lot_buy_ticket c s caller kind index selection = .ok s)
    ∧ (∀ s caller number amount, number % 256 < 100 →
        s.lottery s.round = none →
        ln_buy_ticket lc s caller number amount = .error .notConfigured
        ∧ dispatch (fun t => ln_buy_ticket lc t caller number amount) s
            = (s, some .notConfigured))
    ∧ (∀ s caller number amount cfg, number % 256 < 100 →
        s.lottery s.round = some cfg →
        cfg.start + cfg.length < s.now →
        ln_buy_ticket lc s caller number amount = .error .alreadyEnded
        ∧ dispatch (fun t => ln_buy_ticket lc t caller number amount) s
            = (s, some .alreadyEnded))
    ∧ (∀ s who index, s.giveaways index = none →
        ga_participate s who index = .error .panicked)
    ∧ (∀ s who index g, s.giveaways index = some g →
        g.endBlock < s.now →
        ga_participate s who index = .error .giveawayEnded
        ∧ dispatch (fun t => ga_participate t who index) s
            = (s, some .giveawayEnded)) := by
  refine ⟨?_, ?_, ?_, ?_, ?_, ?_⟩
  · intro s caller kind index selection hnone
    have he : lot_do_buy_ticket c s caller kind index selection
        = .error .notConfigured := by
      unfold lot_do_buy_ticket
      simp only [hnone]
    exact ⟨he, by unfold lot_buy_ticket; rw [he]⟩
  · intro s caller kind index selection cfg hcfg hle
    have he : lot_do_buy_ticket c s caller kind index selection
        = .error .alreadyEnded := by
      unfold lot_do_buy_ticket
      simp only [hcfg]
      rw [if_neg (by omega)]
    exact ⟨he, by unfold lot_buy_ticket; rw [he]⟩
  · intro s caller number amount h100 hnone
    have he : ln_buy_ticket lc s caller number amount
        = .error .notConfigured := by
      unfold ln_buy_ticket
      dsimp only
      rw [if_pos h100]
      simp only [hnone]
    exact ⟨he, by unfold dispatch; simp only [he]⟩
  · intro s caller number amount cfg h100 hcfg hlt
    have he : ln_buy_ticket lc s caller number amount
        = .error .alreadyEnded := by
      unfold ln_buy_ticket
      dsimp only
      rw [if_pos h100]
      simp only [hcfg]
      rw [if_neg (by omega)]
    exact ⟨he, by unfold dispatch; simp only [he]⟩
  · intro s who index hnone
    unfold ga_participate
    simp only [hnone]
  · intro s who index g hcfg hlt
    have he : ga_participate s who index = .error .giveawayEnded := by
      unfold ga_participate
      simp only [hcfg]
      rw [if_neg (by omega)]
    exact ⟨he, by unfold dispatch; simp only [he]⟩

/-- Lottery state for the C6 witness: a config stored only under kind 0,
whose window (start 0, length 5) is over at the current height 9. -/
def lotC6S : LotteryState :=
  { lotteryIndex := fun _ => 0
    lottery := fun k _ => if k = 0 then some ⟨10, 0, 5, 1, false⟩ else none
    participants := fun _ _ _ => []
    balances := fun _ => 100
    events := []
    now := 9 }

/-- Lucky-number state with no round configuration. -/
def lnC6S2 : LNState :=
  { round := 0
    lottery := fun _ => none
    participants := fun _ _ => []
    winners := fun _ => []
    userPredictionValue := fun _ _ _ => 0
    balances := fun _ => 100
    events := []
    now := 0 }

/-- Lucky-number state strictly past the window (start 0, length 5,
height 6). -/
def lnC6S3 : LNState :=
  { round := 0
    lottery := fun _ => some ⟨1, 0, 5, 1, 50, true⟩
    participants := fun _ _ => []
    winners := fun _ => []
    userPredictionValue := fun _ _ _ => 0
    balances := fun _ => 100
    events := []
    now := 6 }

/-- Giveaway state whose round 0 ended at block 5, current height 6. -/
def gaC6S2 : GAState :=
  { gaC6S with
    giveaways := fun g =>
      if g = 0 then some ⟨[], 0, 5, false, 9, some ⟨0, 0⟩, 4⟩ else none
    now := 6 }

/-- Witness for the amended C6 theorem on concrete states. -/
theorem registration_preconditions_amended_witness :
    (lot_do_buy_ticket lotC3c lotC6S 7 1 0 2 = .error .notConfigured
      ∧ lot_buy_ticket lotC3c lotC6S 7 1 0 2 = .ok lotC6S)
    ∧ (lot_do_buy_ticket lotC3c lotC6S 7 0 0 2 = .error .alreadyEnded
      ∧ lot_buy_ticket lotC3c lotC6S 7 0 0 2 = .ok lotC6S)
    ∧ (ln_buy_ticket lnC3c lnC6S2 7 3 10 = .error .notConfigured
      ∧ dispatch (fun t => ln_buy_ticket lnC3c t 7 3 10) lnC6S2
          = (lnC6S2, some .notConfigured))
    ∧ (ln_buy_ticket lnC3c lnC6S3 7 3 10 = .error .alreadyEnded
      ∧ dispatch (fun t => ln_buy_ticket lnC3c t 7 3 10) lnC6S3
          = (lnC6S3, some .alreadyEnded))
    ∧ ga_participate gaC6S 7 0 = .error .panicked
    ∧ (ga_participate gaC6S2 7 0 = .error .giveawayEnded
      ∧ dispatch (fun t => ga_participate t 7 0) gaC6S2
          = (gaC6S2, some .giveawayEnded)) := by
  have h := registration_preconditions_amended lotC3c lnC3c
  exact ⟨h.1 lotC6S 7 1 0 2 (by rfl),
    h.2.1 lotC6S 7 0 0 2 ⟨10, 0, 5, 1, false⟩ (by rfl) (by decide),
    h.2.2.1 lnC6S2 7 3 10 (by decide) (by rfl),
    h.2.2.2.1 lnC6S3 7 3 10 ⟨1, 0, 5, 1, 50, true⟩ (by decide) (by rfl)
      (by decide),
    h.2.2.2.2.1 gaC6S 7 0 (by rfl),
    h.2.2.2.2.2 gaC6S2 7 0 ⟨[], 0, 5, false, 9, some ⟨0, 0⟩, 4⟩ (by rfl)
      (by decide)⟩

/-- When every queued index has a non-empty participant set, the winner
loop of the give-away hook completes without panicking — no stored
configuration is needed, because the fetched config is never read. -/
theorem gw_process_total (oracle : Nat → Nat) :
    ∀ (l : List Nat) (s : GWState),
    (∀ g ∈ l, s.participants g ≠ []) →
    ∃ s', gw_process oracle l s = .ok s' := by
  intro l
  induction l with
  | nil => intro s _; exact ⟨s, rfl⟩
  | cons g rest ih =>
    intro s h
    have hg : s.participants g ≠ [] := h g (List.mem_cons_self g rest)
    have hlen : (s.participants g).length ≠ 0 :=
      fun hc => hg (List.length_eq_zero.mp hc)
    have hlt : generate_random_number oracle g % (s.participants g).length
        < (s.participants g).length :=
      Nat.mod_lt _ (Nat.pos_of_ne_zero hlen)
    have hget := List.get?_eq_get hlt
    obtain ⟨s', hs'⟩ := ih
      { s with events := GWEvent.winner g ((s.participants g).get
          ⟨generate_random_number oracle g % (s.participants g).length,
            hlt⟩) :: s.events }
      (fun g' hg' => h g' (List.mem_cons_of_mem _ hg'))
    refine ⟨s', ?_⟩
    unfold gw_process gw_random_number
    dsimp only
    rw [if_neg hlen]
    dsimp only
    rw [hget]
    exact hs'

/-- When some queued index has an empty participant set, the hook panics
with the modulo-by-zero of `random_number` (the `nth(..).unwrap()` is never
the first failure, since a successful draw is always in range). -/
theorem gw_process_empty (oracle : Nat → Nat) :
    ∀ (l : List Nat) (s : GWState),
    (∃ g ∈ l, s.participants g = []) →
    gw_process oracle l s = .error .modByZero := by
  intro l
  induction l with
  | nil =>
    intro s h
    obtain ⟨g, hg, _⟩ := h
    exact absurd hg (List.not_mem_nil g)
  | cons g rest ih =>
    intro s h
    by_cases hge : s.participants g = []
    · unfold gw_process gw_random_number
      dsimp only
      rw [if_pos (show (s.participants g).length = 0 by
        rw [hge]
        rfl)]
    · obtain ⟨g0, hg0, he0⟩ := h
      have hg0r : g0 ∈ rest := by
        rcases List.mem_cons.mp hg0 with h1 | h1
        · exact absurd (h1 ▸ he0) hge
        · exact h1
      have hlen : (s.participants g).length ≠ 0 :=
        fun hc => hge (List.length_eq_zero.mp hc)
      have hlt : generate_random_number oracle g % (s.participants g).length
          < (s.participants g).length :=
        Nat.mod_lt _ (Nat.pos_of_ne_zero hlen)
      have hget := List.get?_eq_get hlt
      unfold gw_process gw_random_number
      dsimp only
      rw [if_neg hlen]
      dsimp only
      rw [hget]
      exact ih _ ⟨g0, hg0r, he0⟩

/-- Oracle returning 0 for every seed, for the C10 scenarios. -/
def gwOracle : Nat → Nat := fun _ => 0

/-- Give-away state with index 0 queued at block 5, one participant and NO
stored configuration. -/
def gwC10S : GWState :=
  { giveAway := fun _ => none
    participants := fun g => if g = 0 then [7] else []
    blockToGiveAway := fun b => if b = 5 then [0] else []
    events := [] }

/-- Give-away state with index 0 queued at block 5, a stored configuration
and an empty participant set. -/
def gwC10S2 : GWState :=
  { giveAway := fun g => if g = 0 then some ⟨0, 5, false, 0, 9⟩ else none
    participants := fun _ => []
    blockToGiveAway := fun b => if b = 5 then [0] else []
    events := [] }

/-- Counterexample for claim C10: a stored configuration is NOT part of the
panic-freedom precondition.  Giveaway 0 is queued at block 5 with one
participant and no stored config (`GiveAway::get` yields `None`, but the
hook binds the fetched config without reading it), and the hook completes
successfully, emitting the winner. -/
theorem gw_on_init_no_config_ok_cx :
    gwC10S.giveAway 0 = none
    ∧ gwC10S.blockToGiveAway 5 = [0]
    ∧ (gwC10S.participants 0).length ≠ 0
    ∧ gw_on_init_hook gwOracle gwC10S 5
        = .ok { gwC10S with events := [.winner 0 7] } := by
  refine ⟨rfl, rfl, by decide, rfl⟩

/-- Claim C10 (amended): the give-away `on_initialize` hook is panic-free
exactly when every giveaway index queued for the block has a non-empty
participant set; a stored configuration is not required (the hook fetches
it but never reads it).  When some queued index has zero participants the
hook always aborts with the modulo-by-zero panic of `random_number`; the
`nth(..).unwrap()` on the participant lookup never fails first, since a
successful draw `r % len` is always below `len`. -/
theorem gw_hook_totality_amended (oracle : Nat → Nat) (s : GWState)
    (n : Nat) :
    ((∀ g ∈ s.blockToGiveAway n, s.participants g ≠ []) →
      ∃ s', gw_on_init_hook oracle s n = .ok s')
    ∧ ((∃ g ∈ s.blockToGiveAway n, s.participants g = []) →
      gw_on_init_hook oracle s n = .error .modByZero) := by
  constructor
  · intro h
    exact gw_process_total oracle (s.blockToGiveAway n) s h
  · intro h
    exact gw_process_empty oracle (s.blockToGiveAway n) s h

/-- Witness for the amended C10 theorem: the config-free one-participant
state completes, and the empty-participants state panics with
modulo-by-zero. -/
theorem gw_hook_totality_amended_witness :
    (∃ s', gw_on_init_hook gwOracle gwC10S 5 = .ok s')
    ∧ gw_on_init_hook gwOracle gwC10S2 5 = .error .modByZero := by
  refine ⟨(gw_hook_totality_amended gwOracle gwC10S 5).1 ?_,
    (gw_hook_totality_amended gwOracle gwC10S2 5).2 ?_⟩
  · intro g hg
    have hg0 : g = 0 := by simpa [gwC10S] using hg
    subst hg0
    simp [gwC10S]
  · exact ⟨0, by simp [gwC10S2], by simp [gwC10S2]⟩
